import Mathlib

/-!
Verification of the eligibility determination engine
(`src/eligibility/` of the repository) against its specification.

The Python modules are shallowly embedded: pure functions become Lean
functions, Python dictionaries become association lists preserving
insertion order, Python exceptions become `Except` values, and machine
strings become Lean `String`s (lists of unicode characters).
-/

namespace Elig

/-- Python exception classes that the embedded code can raise. -/
inductive PyExn where
  | typeError
  | valueError
  | overflowError
  deriving DecidableEq, Repr

/-- Python runtime values as they occur in the eligibility data records:
`None`, strings and integers.  (The two Excel data sources hold account
identifiers, names, categorical check flags and integer day counts, so
cell values are modelled by these three constructors.) -/
inductive PyVal where
  | vnone
  | vstr (s : String)
  | vint (n : Int)
  deriving DecidableEq, Repr

/-- The Unicode decimal-digit code-point ranges: exactly the characters
accepted by Python's `str.isdecimal`, which is also what the `re` module
matches for `\d` on `str` patterns (Unicode 14.0 tables, as shipped with
CPython 3.11). -/
def ndRanges : List (Nat × Nat) :=
  [(0x30, 0x39), (0x660, 0x669), (0x6F0, 0x6F9), (0x7C0, 0x7C9),
   (0x966, 0x96F), (0x9E6, 0x9EF), (0xA66, 0xA6F), (0xAE6, 0xAEF),
   (0xB66, 0xB6F), (0xBE6, 0xBEF), (0xC66, 0xC6F), (0xCE6, 0xCEF),
   (0xD66, 0xD6F), (0xDE6, 0xDEF), (0xE50, 0xE59), (0xED0, 0xED9),
   (0xF20, 0xF29), (0x1040, 0x1049), (0x1090, 0x1099), (0x17E0, 0x17E9),
   (0x1810, 0x1819), (0x1946, 0x194F), (0x19D0, 0x19D9), (0x1A80, 0x1A89),
   (0x1A90, 0x1A99), (0x1B50, 0x1B59), (0x1BB0, 0x1BB9), (0x1C40, 0x1C49),
   (0x1C50, 0x1C59), (0xA620, 0xA629), (0xA8D0, 0xA8D9), (0xA900, 0xA909),
   (0xA9D0, 0xA9D9), (0xA9F0, 0xA9F9), (0xAA50, 0xAA59), (0xABF0, 0xABF9),
   (0xFF10, 0xFF19), (0x104A0, 0x104A9), (0x10D30, 0x10D39), (0x11066, 0x1106F),
   (0x110F0, 0x110F9), (0x11136, 0x1113F), (0x111D0, 0x111D9), (0x112F0, 0x112F9),
   (0x11450, 0x11459), (0x114D0, 0x114D9), (0x11650, 0x11659), (0x116C0, 0x116C9),
   (0x11730, 0x11739), (0x118E0, 0x118E9), (0x11950, 0x11959), (0x11C50, 0x11C59),
   (0x11D50, 0x11D59), (0x11DA0, 0x11DA9), (0x16A60, 0x16A69), (0x16AC0, 0x16AC9),
   (0x16B50, 0x16B59), (0x1D7CE, 0x1D7FF), (0x1E140, 0x1E149), (0x1E2F0, 0x1E2F9),
   (0x1E950, 0x1E959), (0x1FBF0, 0x1FBF9)]

/-- The code-point ranges accepted by Python's `str.isdigit` beyond the
decimal digits (`Numeric_Type=Digit` characters: superscripts,
subscripts, circled and parenthesised digits, and similar; Unicode 14.0
tables, as shipped with CPython 3.11). -/
def digitTypeRanges : List (Nat × Nat) :=
  [(0xB2, 0xB3), (0xB9, 0xB9), (0x1369, 0x1371), (0x19DA, 0x19DA),
   (0x2070, 0x2070), (0x2074, 0x2079), (0x2080, 0x2089), (0x2460, 0x2468),
   (0x2474, 0x247C), (0x2488, 0x2490), (0x24EA, 0x24EA), (0x24F5, 0x24FD),
   (0x24FF, 0x24FF), (0x2776, 0x277E), (0x2780, 0x2788), (0x278A, 0x2792),
   (0x10A40, 0x10A43), (0x10E60, 0x10E68), (0x11052, 0x1105A), (0x1F100, 0x1F10A)]

/-- Does the character match Python's regex `\d` (a Unicode decimal digit)? -/
def pyIsDigit (c : Char) : Bool :=
  ndRanges.any fun p => decide (p.1 ≤ c.toNat) && decide (c.toNat ≤ p.2)

/-- Is the character accepted by Python's `str.isdigit`?  This is the
`Nd` category together with the `Numeric_Type=Digit` characters. -/
def pyStrIsDigitChar (c : Char) : Bool :=
  pyIsDigit c ||
    digitTypeRanges.any fun p => decide (p.1 ≤ c.toNat) && decide (c.toNat ≤ p.2)

/-- The Unicode alphanumeric code-point ranges: exactly the characters
accepted by Python's `str.isalnum` (alphabetic, decimal, digit, or
numeric; Unicode 14.0 tables, as shipped with CPython 3.11). -/
def pyAlnumRanges : List (Nat × Nat) :=
  [(0x30, 0x39), (0x41, 0x5A), (0x61, 0x7A), (0xAA, 0xAA),
   (0xB2, 0xB3), (0xB5, 0xB5), (0xB9, 0xBA), (0xBC, 0xBE),
   (0xC0, 0xD6), (0xD8, 0xF6), (0xF8, 0x2C1), (0x2C6, 0x2D1),
   (0x2E0, 0x2E4), (0x2EC, 0x2EC), (0x2EE, 0x2EE), (0x370, 0x374),
   (0x376, 0x377), (0x37A, 0x37D), (0x37F, 0x37F), (0x386, 0x386),
   (0x388, 0x38A), (0x38C, 0x38C), (0x38E, 0x3A1), (0x3A3, 0x3F5),
   (0x3F7, 0x481), (0x48A, 0x52F), (0x531, 0x556), (0x559, 0x559),
   (0x560, 0x588), (0x5D0, 0x5EA), (0x5EF, 0x5F2), (0x620, 0x64A),
   (0x660, 0x669), (0x66E, 0x66F), (0x671, 0x6D3), (0x6D5, 0x6D5),
   (0x6E5, 0x6E6), (0x6EE, 0x6FC), (0x6FF, 0x6FF), (0x710, 0x710),
   (0x712, 0x72F), (0x74D, 0x7A5), (0x7B1, 0x7B1), (0x7C0, 0x7EA),
   (0x7F4, 0x7F5), (0x7FA, 0x7FA), (0x800, 0x815), (0x81A, 0x81A),
   (0x824, 0x824), (0x828, 0x828), (0x840, 0x858), (0x860, 0x86A),
   (0x870, 0x887), (0x889, 0x88E), (0x8A0, 0x8C9), (0x904, 0x939),
   (0x93D, 0x93D), (0x950, 0x950), (0x958, 0x961), (0x966, 0x96F),
   (0x971, 0x980), (0x985, 0x98C), (0x98F, 0x990), (0x993, 0x9A8),
   (0x9AA, 0x9B0), (0x9B2, 0x9B2), (0x9B6, 0x9B9), (0x9BD, 0x9BD),
   (0x9CE, 0x9CE), (0x9DC, 0x9DD), (0x9DF, 0x9E1), (0x9E6, 0x9F1),
   (0x9F4, 0x9F9), (0x9FC, 0x9FC), (0xA05, 0xA0A), (0xA0F, 0xA10),
   (0xA13, 0xA28), (0xA2A, 0xA30), (0xA32, 0xA33), (0xA35, 0xA36),
   (0xA38, 0xA39), (0xA59, 0xA5C), (0xA5E, 0xA5E), (0xA66, 0xA6F),
   (0xA72, 0xA74), (0xA85, 0xA8D), (0xA8F, 0xA91), (0xA93, 0xAA8),
   (0xAAA, 0xAB0), (0xAB2, 0xAB3), (0xAB5, 0xAB9), (0xABD, 0xABD),
   (0xAD0, 0xAD0), (0xAE0, 0xAE1), (0xAE6, 0xAEF), (0xAF9, 0xAF9),
   (0xB05, 0xB0C), (0xB0F, 0xB10), (0xB13, 0xB28), (0xB2A, 0xB30),
   (0xB32, 0xB33), (0xB35, 0xB39), (0xB3D, 0xB3D), (0xB5C, 0xB5D),
   (0xB5F, 0xB61), (0xB66, 0xB6F), (0xB71, 0xB77), (0xB83, 0xB83),
   (0xB85, 0xB8A), (0xB8E, 0xB90), (0xB92, 0xB95), (0xB99, 0xB9A),
   (0xB9C, 0xB9C), (0xB9E, 0xB9F), (0xBA3, 0xBA4), (0xBA8, 0xBAA),
   (0xBAE, 0xBB9), (0xBD0, 0xBD0), (0xBE6, 0xBF2), (0xC05, 0xC0C),
   (0xC0E, 0xC10), (0xC12, 0xC28), (0xC2A, 0xC39), (0xC3D, 0xC3D),
   (0xC58, 0xC5A), (0xC5D, 0xC5D), (0xC60, 0xC61), (0xC66, 0xC6F),
   (0xC78, 0xC7E), (0xC80, 0xC80), (0xC85, 0xC8C), (0xC8E, 0xC90),
   (0xC92, 0xCA8), (0xCAA, 0xCB3), (0xCB5, 0xCB9), (0xCBD, 0xCBD),
   (0xCDD, 0xCDE), (0xCE0, 0xCE1), (0xCE6, 0xCEF), (0xCF1, 0xCF2),
   (0xD04, 0xD0C), (0xD0E, 0xD10), (0xD12, 0xD3A), (0xD3D, 0xD3D),
   (0xD4E, 0xD4E), (0xD54, 0xD56), (0xD58, 0xD61), (0xD66, 0xD78),
   (0xD7A, 0xD7F), (0xD85, 0xD96), (0xD9A, 0xDB1), (0xDB3, 0xDBB),
   (0xDBD, 0xDBD), (0xDC0, 0xDC6), (0xDE6, 0xDEF), (0xE01, 0xE30),
   (0xE32, 0xE33), (0xE40, 0xE46), (0xE50, 0xE59), (0xE81, 0xE82),
   (0xE84, 0xE84), (0xE86, 0xE8A), (0xE8C, 0xEA3), (0xEA5, 0xEA5),
   (0xEA7, 0xEB0), (0xEB2, 0xEB3), (0xEBD, 0xEBD), (0xEC0, 0xEC4),
   (0xEC6, 0xEC6), (0xED0, 0xED9), (0xEDC, 0xEDF), (0xF00, 0xF00),
   (0xF20, 0xF33), (0xF40, 0xF47), (0xF49, 0xF6C), (0xF88, 0xF8C),
   (0x1000, 0x102A), (0x103F, 0x1049), (0x1050, 0x1055), (0x105A, 0x105D),
   (0x1061, 0x1061), (0x1065, 0x1066), (0x106E, 0x1070), (0x1075, 0x1081),
   (0x108E, 0x108E), (0x1090, 0x1099), (0x10A0, 0x10C5), (0x10C7, 0x10C7),
   (0x10CD, 0x10CD), (0x10D0, 0x10FA), (0x10FC, 0x1248), (0x124A, 0x124D),
   (0x1250, 0x1256), (0x1258, 0x1258), (0x125A, 0x125D), (0x1260, 0x1288),
   (0x128A, 0x128D), (0x1290, 0x12B0), (0x12B2, 0x12B5), (0x12B8, 0x12BE),
   (0x12C0, 0x12C0), (0x12C2, 0x12C5), (0x12C8, 0x12D6), (0x12D8, 0x1310),
   (0x1312, 0x1315), (0x1318, 0x135A), (0x1369, 0x137C), (0x1380, 0x138F),
   (0x13A0, 0x13F5), (0x13F8, 0x13FD), (0x1401, 0x166C), (0x166F, 0x167F),
   (0x1681, 0x169A), (0x16A0, 0x16EA), (0x16EE, 0x16F8), (0x1700, 0x1711),
   (0x171F, 0x1731), (0x1740, 0x1751), (0x1760, 0x176C), (0x176E, 0x1770),
   (0x1780, 0x17B3), (0x17D7, 0x17D7), (0x17DC, 0x17DC), (0x17E0, 0x17E9),
   (0x17F0, 0x17F9), (0x1810, 0x1819), (0x1820, 0x1878), (0x1880, 0x1884),
   (0x1887, 0x18A8), (0x18AA, 0x18AA), (0x18B0, 0x18F5), (0x1900, 0x191E),
   (0x1946, 0x196D), (0x1970, 0x1974), (0x1980, 0x19AB), (0x19B0, 0x19C9),
   (0x19D0, 0x19DA), (0x1A00, 0x1A16), (0x1A20, 0x1A54), (0x1A80, 0x1A89),
   (0x1A90, 0x1A99), (0x1AA7, 0x1AA7), (0x1B05, 0x1B33), (0x1B45, 0x1B4C),
   (0x1B50, 0x1B59), (0x1B83, 0x1BA0), (0x1BAE, 0x1BE5), (0x1C00, 0x1C23),
   (0x1C40, 0x1C49), (0x1C4D, 0x1C7D), (0x1C80, 0x1C88), (0x1C90, 0x1CBA),
   (0x1CBD, 0x1CBF), (0x1CE9, 0x1CEC), (0x1CEE, 0x1CF3), (0x1CF5, 0x1CF6),
   (0x1CFA, 0x1CFA), (0x1D00, 0x1DBF), (0x1E00, 0x1F15), (0x1F18, 0x1F1D),
   (0x1F20, 0x1F45), (0x1F48, 0x1F4D), (0x1F50, 0x1F57), (0x1F59, 0x1F59),
   (0x1F5B, 0x1F5B), (0x1F5D, 0x1F5D), (0x1F5F, 0x1F7D), (0x1F80, 0x1FB4),
   (0x1FB6, 0x1FBC), (0x1FBE, 0x1FBE), (0x1FC2, 0x1FC4), (0x1FC6, 0x1FCC),
   (0x1FD0, 0x1FD3), (0x1FD6, 0x1FDB), (0x1FE0, 0x1FEC), (0x1FF2, 0x1FF4),
   (0x1FF6, 0x1FFC), (0x2070, 0x2071), (0x2074, 0x2079), (0x207F, 0x2089),
   (0x2090, 0x209C), (0x2102, 0x2102), (0x2107, 0x2107), (0x210A, 0x2113),
   (0x2115, 0x2115), (0x2119, 0x211D), (0x2124, 0x2124), (0x2126, 0x2126),
   (0x2128, 0x2128), (0x212A, 0x212D), (0x212F, 0x2139), (0x213C, 0x213F),
   (0x2145, 0x2149), (0x214E, 0x214E), (0x2150, 0x2189), (0x2460, 0x249B),
   (0x24EA, 0x24FF), (0x2776, 0x2793), (0x2C00, 0x2CE4), (0x2CEB, 0x2CEE),
   (0x2CF2, 0x2CF3), (0x2CFD, 0x2CFD), (0x2D00, 0x2D25), (0x2D27, 0x2D27),
   (0x2D2D, 0x2D2D), (0x2D30, 0x2D67), (0x2D6F, 0x2D6F), (0x2D80, 0x2D96),
   (0x2DA0, 0x2DA6), (0x2DA8, 0x2DAE), (0x2DB0, 0x2DB6), (0x2DB8, 0x2DBE),
   (0x2DC0, 0x2DC6), (0x2DC8, 0x2DCE), (0x2DD0, 0x2DD6), (0x2DD8, 0x2DDE),
   (0x2E2F, 0x2E2F), (0x3005, 0x3007), (0x3021, 0x3029), (0x3031, 0x3035),
   (0x3038, 0x303C), (0x3041, 0x3096), (0x309D, 0x309F), (0x30A1, 0x30FA),
   (0x30FC, 0x30FF), (0x3105, 0x312F), (0x3131, 0x318E), (0x3192, 0x3195),
   (0x31A0, 0x31BF), (0x31F0, 0x31FF), (0x3220, 0x3229), (0x3248, 0x324F),
   (0x3251, 0x325F), (0x3280, 0x3289), (0x32B1, 0x32BF), (0x3400, 0x4DBF),
   (0x4E00, 0xA48C), (0xA4D0, 0xA4FD), (0xA500, 0xA60C), (0xA610, 0xA62B),
   (0xA640, 0xA66E), (0xA67F, 0xA69D), (0xA6A0, 0xA6EF), (0xA717, 0xA71F),
   (0xA722, 0xA788), (0xA78B, 0xA7CA), (0xA7D0, 0xA7D1), (0xA7D3, 0xA7D3),
   (0xA7D5, 0xA7D9), (0xA7F2, 0xA801), (0xA803, 0xA805), (0xA807, 0xA80A),
   (0xA80C, 0xA822), (0xA830, 0xA835), (0xA840, 0xA873), (0xA882, 0xA8B3),
   (0xA8D0, 0xA8D9), (0xA8F2, 0xA8F7), (0xA8FB, 0xA8FB), (0xA8FD, 0xA8FE),
   (0xA900, 0xA925), (0xA930, 0xA946), (0xA960, 0xA97C), (0xA984, 0xA9B2),
   (0xA9CF, 0xA9D9), (0xA9E0, 0xA9E4), (0xA9E6, 0xA9FE), (0xAA00, 0xAA28),
   (0xAA40, 0xAA42), (0xAA44, 0xAA4B), (0xAA50, 0xAA59), (0xAA60, 0xAA76),
   (0xAA7A, 0xAA7A), (0xAA7E, 0xAAAF), (0xAAB1, 0xAAB1), (0xAAB5, 0xAAB6),
   (0xAAB9, 0xAABD), (0xAAC0, 0xAAC0), (0xAAC2, 0xAAC2), (0xAADB, 0xAADD),
   (0xAAE0, 0xAAEA), (0xAAF2, 0xAAF4), (0xAB01, 0xAB06), (0xAB09, 0xAB0E),
   (0xAB11, 0xAB16), (0xAB20, 0xAB26), (0xAB28, 0xAB2E), (0xAB30, 0xAB5A),
   (0xAB5C, 0xAB69), (0xAB70, 0xABE2), (0xABF0, 0xABF9), (0xAC00, 0xD7A3),
   (0xD7B0, 0xD7C6), (0xD7CB, 0xD7FB), (0xF900, 0xFA6D), (0xFA70, 0xFAD9),
   (0xFB00, 0xFB06), (0xFB13, 0xFB17), (0xFB1D, 0xFB1D), (0xFB1F, 0xFB28),
   (0xFB2A, 0xFB36), (0xFB38, 0xFB3C), (0xFB3E, 0xFB3E), (0xFB40, 0xFB41),
   (0xFB43, 0xFB44), (0xFB46, 0xFBB1), (0xFBD3, 0xFD3D), (0xFD50, 0xFD8F),
   (0xFD92, 0xFDC7), (0xFDF0, 0xFDFB), (0xFE70, 0xFE74), (0xFE76, 0xFEFC),
   (0xFF10, 0xFF19), (0xFF21, 0xFF3A), (0xFF41, 0xFF5A), (0xFF66, 0xFFBE),
   (0xFFC2, 0xFFC7), (0xFFCA, 0xFFCF), (0xFFD2, 0xFFD7), (0xFFDA, 0xFFDC),
   (0x10000, 0x1000B), (0x1000D, 0x10026), (0x10028, 0x1003A), (0x1003C, 0x1003D),
   (0x1003F, 0x1004D), (0x10050, 0x1005D), (0x10080, 0x100FA), (0x10107, 0x10133),
   (0x10140, 0x10178), (0x1018A, 0x1018B), (0x10280, 0x1029C), (0x102A0, 0x102D0),
   (0x102E1, 0x102FB), (0x10300, 0x10323), (0x1032D, 0x1034A), (0x10350, 0x10375),
   (0x10380, 0x1039D), (0x103A0, 0x103C3), (0x103C8, 0x103CF), (0x103D1, 0x103D5),
   (0x10400, 0x1049D), (0x104A0, 0x104A9), (0x104B0, 0x104D3), (0x104D8, 0x104FB),
   (0x10500, 0x10527), (0x10530, 0x10563), (0x10570, 0x1057A), (0x1057C, 0x1058A),
   (0x1058C, 0x10592), (0x10594, 0x10595), (0x10597, 0x105A1), (0x105A3, 0x105B1),
   (0x105B3, 0x105B9), (0x105BB, 0x105BC), (0x10600, 0x10736), (0x10740, 0x10755),
   (0x10760, 0x10767), (0x10780, 0x10785), (0x10787, 0x107B0), (0x107B2, 0x107BA),
   (0x10800, 0x10805), (0x10808, 0x10808), (0x1080A, 0x10835), (0x10837, 0x10838),
   (0x1083C, 0x1083C), (0x1083F, 0x10855), (0x10858, 0x10876), (0x10879, 0x1089E),
   (0x108A7, 0x108AF), (0x108E0, 0x108F2), (0x108F4, 0x108F5), (0x108FB, 0x1091B),
   (0x10920, 0x10939), (0x10980, 0x109B7), (0x109BC, 0x109CF), (0x109D2, 0x10A00),
   (0x10A10, 0x10A13), (0x10A15, 0x10A17), (0x10A19, 0x10A35), (0x10A40, 0x10A48),
   (0x10A60, 0x10A7E), (0x10A80, 0x10A9F), (0x10AC0, 0x10AC7), (0x10AC9, 0x10AE4),
   (0x10AEB, 0x10AEF), (0x10B00, 0x10B35), (0x10B40, 0x10B55), (0x10B58, 0x10B72),
   (0x10B78, 0x10B91), (0x10BA9, 0x10BAF), (0x10C00, 0x10C48), (0x10C80, 0x10CB2),
   (0x10CC0, 0x10CF2), (0x10CFA, 0x10D23), (0x10D30, 0x10D39), (0x10E60, 0x10E7E),
   (0x10E80, 0x10EA9), (0x10EB0, 0x10EB1), (0x10F00, 0x10F27), (0x10F30, 0x10F45),
   (0x10F51, 0x10F54), (0x10F70, 0x10F81), (0x10FB0, 0x10FCB), (0x10FE0, 0x10FF6),
   (0x11003, 0x11037), (0x11052, 0x1106F), (0x11071, 0x11072), (0x11075, 0x11075),
   (0x11083, 0x110AF), (0x110D0, 0x110E8), (0x110F0, 0x110F9), (0x11103, 0x11126),
   (0x11136, 0x1113F), (0x11144, 0x11144), (0x11147, 0x11147), (0x11150, 0x11172),
   (0x11176, 0x11176), (0x11183, 0x111B2), (0x111C1, 0x111C4), (0x111D0, 0x111DA),
   (0x111DC, 0x111DC), (0x111E1, 0x111F4), (0x11200, 0x11211), (0x11213, 0x1122B),
   (0x11280, 0x11286), (0x11288, 0x11288), (0x1128A, 0x1128D), (0x1128F, 0x1129D),
   (0x1129F, 0x112A8), (0x112B0, 0x112DE), (0x112F0, 0x112F9), (0x11305, 0x1130C),
   (0x1130F, 0x11310), (0x11313, 0x11328), (0x1132A, 0x11330), (0x11332, 0x11333),
   (0x11335, 0x11339), (0x1133D, 0x1133D), (0x11350, 0x11350), (0x1135D, 0x11361),
   (0x11400, 0x11434), (0x11447, 0x1144A), (0x11450, 0x11459), (0x1145F, 0x11461),
   (0x11480, 0x114AF), (0x114C4, 0x114C5), (0x114C7, 0x114C7), (0x114D0, 0x114D9),
   (0x11580, 0x115AE), (0x115D8, 0x115DB), (0x11600, 0x1162F), (0x11644, 0x11644),
   (0x11650, 0x11659), (0x11680, 0x116AA), (0x116B8, 0x116B8), (0x116C0, 0x116C9),
   (0x11700, 0x1171A), (0x11730, 0x1173B), (0x11740, 0x11746), (0x11800, 0x1182B),
   (0x118A0, 0x118F2), (0x118FF, 0x11906), (0x11909, 0x11909), (0x1190C, 0x11913),
   (0x11915, 0x11916), (0x11918, 0x1192F), (0x1193F, 0x1193F), (0x11941, 0x11941),
   (0x11950, 0x11959), (0x119A0, 0x119A7), (0x119AA, 0x119D0), (0x119E1, 0x119E1),
   (0x119E3, 0x119E3), (0x11A00, 0x11A00), (0x11A0B, 0x11A32), (0x11A3A, 0x11A3A),
   (0x11A50, 0x11A50), (0x11A5C, 0x11A89), (0x11A9D, 0x11A9D), (0x11AB0, 0x11AF8),
   (0x11C00, 0x11C08), (0x11C0A, 0x11C2E), (0x11C40, 0x11C40), (0x11C50, 0x11C6C),
   (0x11C72, 0x11C8F), (0x11D00, 0x11D06), (0x11D08, 0x11D09), (0x11D0B, 0x11D30),
   (0x11D46, 0x11D46), (0x11D50, 0x11D59), (0x11D60, 0x11D65), (0x11D67, 0x11D68),
   (0x11D6A, 0x11D89), (0x11D98, 0x11D98), (0x11DA0, 0x11DA9), (0x11EE0, 0x11EF2),
   (0x11FB0, 0x11FB0), (0x11FC0, 0x11FD4), (0x12000, 0x12399), (0x12400, 0x1246E),
   (0x12480, 0x12543), (0x12F90, 0x12FF0), (0x13000, 0x1342E), (0x14400, 0x14646),
   (0x16800, 0x16A38), (0x16A40, 0x16A5E), (0x16A60, 0x16A69), (0x16A70, 0x16ABE),
   (0x16AC0, 0x16AC9), (0x16AD0, 0x16AED), (0x16B00, 0x16B2F), (0x16B40, 0x16B43),
   (0x16B50, 0x16B59), (0x16B5B, 0x16B61), (0x16B63, 0x16B77), (0x16B7D, 0x16B8F),
   (0x16E40, 0x16E96), (0x16F00, 0x16F4A), (0x16F50, 0x16F50), (0x16F93, 0x16F9F),
   (0x16FE0, 0x16FE1), (0x16FE3, 0x16FE3), (0x17000, 0x187F7), (0x18800, 0x18CD5),
   (0x18D00, 0x18D08), (0x1AFF0, 0x1AFF3), (0x1AFF5, 0x1AFFB), (0x1AFFD, 0x1AFFE),
   (0x1B000, 0x1B122), (0x1B150, 0x1B152), (0x1B164, 0x1B167), (0x1B170, 0x1B2FB),
   (0x1BC00, 0x1BC6A), (0x1BC70, 0x1BC7C), (0x1BC80, 0x1BC88), (0x1BC90, 0x1BC99),
   (0x1D2E0, 0x1D2F3), (0x1D360, 0x1D378), (0x1D400, 0x1D454), (0x1D456, 0x1D49C),
   (0x1D49E, 0x1D49F), (0x1D4A2, 0x1D4A2), (0x1D4A5, 0x1D4A6), (0x1D4A9, 0x1D4AC),
   (0x1D4AE, 0x1D4B9), (0x1D4BB, 0x1D4BB), (0x1D4BD, 0x1D4C3), (0x1D4C5, 0x1D505),
   (0x1D507, 0x1D50A), (0x1D50D, 0x1D514), (0x1D516, 0x1D51C), (0x1D51E, 0x1D539),
   (0x1D53B, 0x1D53E), (0x1D540, 0x1D544), (0x1D546, 0x1D546), (0x1D54A, 0x1D550),
   (0x1D552, 0x1D6A5), (0x1D6A8, 0x1D6C0), (0x1D6C2, 0x1D6DA), (0x1D6DC, 0x1D6FA),
   (0x1D6FC, 0x1D714), (0x1D716, 0x1D734), (0x1D736, 0x1D74E), (0x1D750, 0x1D76E),
   (0x1D770, 0x1D788), (0x1D78A, 0x1D7A8), (0x1D7AA, 0x1D7C2), (0x1D7C4, 0x1D7CB),
   (0x1D7CE, 0x1D7FF), (0x1DF00, 0x1DF1E), (0x1E100, 0x1E12C), (0x1E137, 0x1E13D),
   (0x1E140, 0x1E149), (0x1E14E, 0x1E14E), (0x1E290, 0x1E2AD), (0x1E2C0, 0x1E2EB),
   (0x1E2F0, 0x1E2F9), (0x1E7E0, 0x1E7E6), (0x1E7E8, 0x1E7EB), (0x1E7ED, 0x1E7EE),
   (0x1E7F0, 0x1E7FE), (0x1E800, 0x1E8C4), (0x1E8C7, 0x1E8CF), (0x1E900, 0x1E943),
   (0x1E94B, 0x1E94B), (0x1E950, 0x1E959), (0x1EC71, 0x1ECAB), (0x1ECAD, 0x1ECAF),
   (0x1ECB1, 0x1ECB4), (0x1ED01, 0x1ED2D), (0x1ED2F, 0x1ED3D), (0x1EE00, 0x1EE03),
   (0x1EE05, 0x1EE1F), (0x1EE21, 0x1EE22), (0x1EE24, 0x1EE24), (0x1EE27, 0x1EE27),
   (0x1EE29, 0x1EE32), (0x1EE34, 0x1EE37), (0x1EE39, 0x1EE39), (0x1EE3B, 0x1EE3B),
   (0x1EE42, 0x1EE42), (0x1EE47, 0x1EE47), (0x1EE49, 0x1EE49), (0x1EE4B, 0x1EE4B),
   (0x1EE4D, 0x1EE4F), (0x1EE51, 0x1EE52), (0x1EE54, 0x1EE54), (0x1EE57, 0x1EE57),
   (0x1EE59, 0x1EE59), (0x1EE5B, 0x1EE5B), (0x1EE5D, 0x1EE5D), (0x1EE5F, 0x1EE5F),
   (0x1EE61, 0x1EE62), (0x1EE64, 0x1EE64), (0x1EE67, 0x1EE6A), (0x1EE6C, 0x1EE72),
   (0x1EE74, 0x1EE77), (0x1EE79, 0x1EE7C), (0x1EE7E, 0x1EE7E), (0x1EE80, 0x1EE89),
   (0x1EE8B, 0x1EE9B), (0x1EEA1, 0x1EEA3), (0x1EEA5, 0x1EEA9), (0x1EEAB, 0x1EEBB),
   (0x1F100, 0x1F10C), (0x1FBF0, 0x1FBF9), (0x20000, 0x2A6DF), (0x2A700, 0x2B738),
   (0x2B740, 0x2B81D), (0x2B820, 0x2CEA1), (0x2CEB0, 0x2EBE0), (0x2F800, 0x2FA1D),
   (0x30000, 0x3134A)]

/-- Python's regex word character (`\w`, and the class consulted by the
word-boundary assertion `\b`): the underscore together with the Unicode
alphanumeric characters.  The decimal digits are also tested directly;
they are alphanumeric, so this adds nothing. -/
def pyIsWordChar (c : Char) : Bool :=
  c = '_' || pyIsDigit c ||
    pyAlnumRanges.any fun p => decide (p.1 ≤ c.toNat) && decide (c.toNat ≤ p.2)

/-- Whitespace as stripped by Python's `str.strip()` (ASCII whitespace;
the rarely-seen extra Unicode space characters are not enumerated, which
does not change the behaviour of any embedded function on digit-bearing
input). -/
def pyIsSpace (c : Char) : Bool :=
  c = ' ' || c = '\t' || c = '\n' || c = '\r' ||
    c.toNat = 0x0B || c.toNat = 0x0C

/-- Python truthiness for the embedded value fragment. -/
def pyTruthy : PyVal → Bool
  | .vnone => false
  | .vstr s => !s.isEmpty
  | .vint n => n != 0

/-- Python `==` on the embedded value fragment (no cross-type equality
between strings, integers and `None`). -/
def pyEq : PyVal → PyVal → Bool
  | .vnone, .vnone => true
  | .vstr a, .vstr b => a == b
  | .vint a, .vint b => a == b
  | _, _ => false

/-- Python `str()` of an embedded value. -/
def pyStr : PyVal → String
  | .vnone => "None"
  | .vstr s => s
  | .vint n => toString n

/-- Association-list lookup, modelling `d.get(k)` on a Python dict whose
keys are strings (insertion order preserved by the list). -/
def alistGet? {β : Type} (d : List (String × β)) (k : String) : Option β :=
  (d.find? fun kv => kv.1 == k).map (·.2)

/-- Python `d.get(k, default)`. -/
def alistGetD {β : Type} (d : List (String × β)) (k : String) (v : β) : β :=
  (alistGet? d k).getD v

/-- Python `k in d`. -/
def alistContains {β : Type} (d : List (String × β)) (k : String) : Bool :=
  (alistGet? d k).isSome

/-- Python `d[k] = v`: overwrite in place if present, append otherwise. -/
def alistSet {β : Type} (d : List (String × β)) (k : String) (v : β) :
    List (String × β) :=
  if alistContains d k then
    d.map fun kv => if kv.1 == k then (kv.1, v) else kv
  else
    d ++ [(k, v)]

/-- A data record: one row of an Excel data source, keyed by column name. -/
abbrev Record := List (String × PyVal)

/-- Drop characters from the end of a list while a predicate holds. -/
def dropWhileEnd (p : Char → Bool) (l : List Char) : List Char :=
  (l.reverse.dropWhile p).reverse

/-- Python `s.strip(chars)`: remove leading and trailing characters
satisfying the predicate. -/
def pyStripWith (p : Char → Bool) (s : String) : String :=
  String.mk (dropWhileEnd p (s.data.dropWhile p))

/-- Python `s.strip()` (whitespace). -/
def pyStrip (s : String) : String := pyStripWith pyIsSpace s

/-- Left-to-right non-overlapping replacement of a non-empty pattern
(`pat` is passed with its length so the recursion stays structural: a
positive `skip` count means characters of an already-replaced pattern
occurrence are still being consumed). -/
def pyReplaceAux (pat sub : List Char) : Nat → List Char → List Char
  | _ + 1, [] => []
  | k + 1, _ :: rest => pyReplaceAux pat sub k rest
  | 0, [] => []
  | 0, c :: rest =>
    if pat.isPrefixOf (c :: rest) then
      sub ++ pyReplaceAux pat sub (pat.length - 1) rest
    else
      c :: pyReplaceAux pat sub 0 rest

/-- Python `s.replace(pat, sub)` for a non-empty pattern (the engine only
substitutes `\x7bname\x7d` placeholders, which are never empty). -/
def pyReplace (s pat sub : String) : String :=
  match pat.data with
  | [] => s
  | _ :: _ => String.mk (pyReplaceAux pat.data sub.data 0 s.data)

/-- Python `s.split(sep)` for a non-empty separator, on character lists:
`cur` accumulates the current piece in reverse; a positive `skip` count
means characters of a just-recognised separator are still being
consumed (keeping the recursion structural). -/
def pySplitOnAux (sep : List Char) : Nat → List Char → List Char → List (List Char)
  | _ + 1, cur, [] => [cur.reverse]
  | k + 1, cur, _ :: rest => pySplitOnAux sep k cur rest
  | 0, cur, [] => [cur.reverse]
  | 0, cur, c :: rest =>
    if sep.isPrefixOf (c :: rest) then
      cur.reverse :: pySplitOnAux sep (sep.length - 1) [] rest
    else
      pySplitOnAux sep 0 (c :: cur) rest

/-- Python `s.split(sep)` (non-empty separator; an empty separator raises
in Python and never occurs here). -/
def pySplitOn (s sep : String) : List String :=
  match sep.data with
  | [] => [s]
  | _ :: _ => (pySplitOnAux sep.data 0 [] s.data).map String.mk

/-- Python `s.lower()` (ASCII case mapping; the reason codes it is
applied to are ASCII). -/
def pyToLower (s : String) : String := String.mk (s.data.map Char.toLower)

/-! ## AccountExtractor (`src/eligibility/account_extractor.py`)

`extract` runs `re.findall(r"\b\d{10}\b", message)` and deduplicates the
matches preserving first occurrence.  The regex is embedded by a
left-to-right scan: a match at a position requires ten Unicode decimal
digits, a word boundary before (the previous character, if any, is not a
word character) and a word boundary after (the following character, if
any, is not a word character); on a match the scan resumes after the
matched run, otherwise it advances one character. -/

/-- Does `\b\d{10}\b` match at the start of `cs`, where `prevWord` says
whether the character immediately before `cs` is a word character? -/
def matchHere (prevWord : Bool) (cs : List Char) : Bool :=
  decide ((cs.take 10).length = 10) && (cs.take 10).all pyIsDigit &&
    !prevWord &&
    (match cs.drop 10 with
     | [] => true
     | c :: _ => !pyIsWordChar c)

/-- The scan performed by `re.findall` for the pattern `\b\d{10}\b`: on a
match, emit the ten digits and continue after them; otherwise step one
character.  A positive `skip` count means characters of a just-emitted
match are still being consumed (keeping the recursion structural); the
word-character status of each consumed character is threaded through as
the `prevWord` flag for the next position. -/
def scanTenAux : Nat → Bool → List Char → List String
  | _ + 1, _, [] => []
  | k + 1, _, d :: rest => scanTenAux k (pyIsWordChar d) rest
  | 0, _, [] => []
  | 0, prevWord, c :: rest =>
    if matchHere prevWord (c :: rest) then
      String.mk ((c :: rest).take 10) :: scanTenAux 9 (pyIsWordChar c) rest
    else
      scanTenAux 0 (pyIsWordChar c) rest

/-- The full scan from a given left context. -/
def scanTen (prevWord : Bool) (cs : List Char) : List String :=
  scanTenAux 0 prevWord cs

/-- Reference collector that tests every position (stepping one character
at a time) instead of skipping over matches. -/
def allStep : Bool → List Char → List String
  | _, [] => []
  | prevWord, c :: rest =>
    (if matchHere prevWord (c :: rest) then
       [String.mk ((c :: rest).take 10)]
     else []) ++ allStep (pyIsWordChar c) rest

/-- Deduplication preserving first-seen order, as in the Python loop
over `matches` with a `seen` set. -/
def pyDedupAux (seen : List String) : List String → List String
  | [] => []
  | x :: rest =>
    if seen.contains x then pyDedupAux seen rest
    else x :: pyDedupAux (x :: seen) rest

/-- Deduplicate a list of strings, keeping first occurrences. -/
def pyDedup (xs : List String) : List String := pyDedupAux [] xs

/-- Embedding of `AccountExtractor.extract`: empty or whitespace-only
input short-circuits to `[]`; otherwise the regex matches are collected
and deduplicated. -/
def extract (message : String) : List String :=
  if message.isEmpty || (pyStrip message).isEmpty then []
  else pyDedup (scanTen false message.data)

/-- Positional description of a regex match: at position `i` there are
ten decimal digits, the character before (or the left context `prevWord`
when `i = 0`) is not a word character, and the character after — if any —
is not a word character. -/
def boundedRunAt (prevWord : Bool) (cs : List Char) (i : Nat) : Bool :=
  decide (i + 10 ≤ cs.length) && ((cs.drop i).take 10).all pyIsDigit &&
    (if i = 0 then !prevWord else !pyIsWordChar (cs.getD (i - 1) ' ')) &&
    (decide (i + 10 = cs.length) || !pyIsWordChar (cs.getD (i + 10) ' '))

/-- All runs of exactly ten digits bounded by non-word characters, in
position order. -/
def boundedTenDigitRuns (cs : List Char) : List String :=
  (List.range cs.length).filterMap fun i =>
    if boundedRunAt false cs i then some (String.mk ((cs.drop i).take 10))
    else none

/-- The claim's wording, formalised: a maximal run of exactly ten digits
at position `i` — ten digits there, no digit immediately before, no digit
immediately after (word characters other than digits are not excluded). -/
def digitRunAt (cs : List Char) (i : Nat) : Bool :=
  decide (i + 10 ≤ cs.length) && ((cs.drop i).take 10).all pyIsDigit &&
    (decide (i = 0) || !pyIsDigit (cs.getD (i - 1) ' ')) &&
    (decide (i + 10 = cs.length) || !pyIsDigit (cs.getD (i + 10) ' '))

/-- All maximal runs of exactly ten digits, in position order (the claim
as written, before deduplication). -/
def maximalTenDigitRuns (cs : List Char) : List String :=
  (List.range cs.length).filterMap fun i =>
    if digitRunAt cs i then some (String.mk ((cs.drop i).take 10)) else none

/-! ## AccountValidator (`src/eligibility/account_validator.py`) -/

/-- Python `s.isdigit()`: non-empty and every character a digit-type
character. -/
def pyStrIsDigit (s : String) : Bool :=
  !s.isEmpty && s.data.all pyStrIsDigitChar

/-- Embedding of `AccountValidator._is_valid_account`: non-empty, exactly
ten characters, and `str.isdigit` holds. -/
def is_valid_account (account : String) : Bool :=
  if account.isEmpty then false
  else if account.length != 10 then false
  else if !pyStrIsDigit account then false
  else true

/-- Embedding of `AccountValidator.validate`: `None` and the empty list
give two empty lists, otherwise the input is partitioned (order
preserved in each part). -/
def validate (account_numbers : Option (List String)) :
    List String × List String :=
  match account_numbers with
  | none => ([], [])
  | some xs =>
    if xs.isEmpty then ([], [])
    else (xs.filter is_valid_account, xs.filter fun a => !is_valid_account a)

/-! ## Python numeric helpers used by the facts builders

Python floats are modelled by rationals extended with the three special
values; the data columns fed to the builders hold integer day counts, for
which this model is exact. -/

/-- Python float values: finite (modelled as a rational), infinities, NaN. -/
inductive PyFloat where
  | fin (q : ℚ)
  | inf
  | ninf
  | nan
  deriving DecidableEq, Repr

/-- Decimal value of a Unicode decimal-digit character (Python's `float`
accepts any `Nd` digit).  The `Nd` ranges are runs of ten code points
starting at digit zero, so the value is the offset modulo ten. -/
def pyDigitVal? (c : Char) : Option Nat :=
  (ndRanges.find? fun p => decide (p.1 ≤ c.toNat) && decide (c.toNat ≤ p.2)).map
    fun p => (c.toNat - p.1) % 10

/-- Read a maximal run of decimal digits, returning their values and the
rest of the input. -/
def takeDigitVals : List Char → List Nat × List Char
  | [] => ([], [])
  | c :: rest =>
    match pyDigitVal? c with
    | some v =>
      let (vs, r) := takeDigitVals rest
      (v :: vs, r)
    | none => ([], c :: rest)

/-- Natural number denoted by a list of digit values. -/
def digitsToNat (ds : List Nat) : Nat :=
  ds.foldl (fun acc d => acc * 10 + d) 0

/-- Lower-case an ASCII letter (Python's case-insensitive acceptance of
the `inf`, `infinity` and `nan` spellings). -/
def asciiLower (c : Char) : Char := c.toLower

/-- Parse the body of a Python float literal (after stripping whitespace
and an optional sign): `inf`, `infinity`, `nan`, or a decimal number with
optional fractional part and exponent.  (Underscore digit separators,
accepted by CPython, are not modelled.) -/
def pyFloatBody (cs : List Char) : Option PyFloat :=
  let lower := cs.map asciiLower
  if lower = "inf".data || lower = "infinity".data then some .inf
  else if lower = "nan".data then some .nan
  else
    let (intDs, r1) := takeDigitVals cs
    let (fracDs, r2) :=
      match r1 with
      | '.' :: r => takeDigitVals r
      | _ => ([], r1)
    if intDs.isEmpty && fracDs.isEmpty then none
    else
      let mantissa : ℚ :=
        (digitsToNat intDs : ℚ) + (digitsToNat fracDs : ℚ) / ((10 : ℚ) ^ fracDs.length)
      match r2 with
      | [] => some (.fin mantissa)
      | e :: r3 =>
        if asciiLower e = 'e' then
          let (esign, r4) :=
            match r3 with
            | '+' :: r => ((1 : Int), r)
            | '-' :: r => ((-1 : Int), r)
            | _ => ((1 : Int), r3)
          let (expDs, r5) := takeDigitVals r4
          if expDs.isEmpty || !r5.isEmpty then none
          else some (.fin (mantissa * (10 : ℚ) ^ (esign * (digitsToNat expDs : Int))))
        else none

/-- Python `float(s)` on a string: strip whitespace, read an optional
sign, then parse the body; failure raises `ValueError`. -/
def pyFloatOfString (s : String) : Except PyExn PyFloat :=
  let cs := (pyStrip s).data
  let (neg, body) :=
    match cs with
    | '+' :: r => (false, r)
    | '-' :: r => (true, r)
    | r => (false, r)
  match pyFloatBody body with
  | some (.fin q) => .ok (.fin (if neg then -q else q))
  | some .inf => .ok (if neg then .ninf else .inf)
  | some .nan => .ok .nan
  | some .ninf => .ok (if neg then .inf else .ninf)
  | none => .error .valueError

/-- Python `float(v)` on an embedded value. -/
def pyFloat : PyVal → Except PyExn PyFloat
  | .vnone => .error .typeError
  | .vstr s => pyFloatOfString s
  | .vint n => .ok (.fin n)

/-- The builder's guarded coercion
`try: val = float(val) if val else 0 / except (ValueError, TypeError): val = 0`:
never raises. -/
def coerceFloat (val : PyVal) : PyFloat :=
  if pyTruthy val then
    match pyFloat val with
    | .ok f => f
    | .error _ => .fin 0
  else .fin 0

/-- Python `>` on floats (comparisons involving NaN are false). -/
def fgt : PyFloat → PyFloat → Bool
  | .fin a, .fin b => a > b
  | .fin _, .ninf => true
  | .inf, .fin _ => true
  | .inf, .ninf => true
  | _, _ => false

/-- Python `==` on floats (NaN is not equal to itself). -/
def feq : PyFloat → PyFloat → Bool
  | .fin a, .fin b => a == b
  | .inf, .inf => true
  | .ninf, .ninf => true
  | _, _ => false

/-- Python `max` over a non-empty float list, folding with `>` exactly as
CPython keeps the current maximum. -/
def pyMaxFloat (v : PyFloat) (rest : List PyFloat) : PyFloat :=
  rest.foldl (fun m x => if fgt x m then x else m) v

/-- Python `list.index` on floats (raises `ValueError` when absent). -/
def pyIndexFloat (vs : List PyFloat) (x : PyFloat) : Except PyExn Nat :=
  match vs.findIdx? (fun v => feq v x) with
  | some i => .ok i
  | none => .error .valueError

/-- Truncation toward zero, as Python `int()` on a finite float. -/
def ratTrunc (q : ℚ) : Int := if 0 ≤ q then ⌊q⌋ else ⌈q⌉

/-- Python `int()` on a float: infinities raise `OverflowError`, NaN
raises `ValueError`. -/
def pyIntOfFloat : PyFloat → Except PyExn Int
  | .fin q => .ok (ratTrunc q)
  | .inf => .error .overflowError
  | .ninf => .error .overflowError
  | .nan => .error .valueError

/-- Python `>` on raw record values: numbers compare numerically, strings
lexicographically; mixed types (and `None`) raise `TypeError`. -/
def pyGt : PyVal → PyVal → Except PyExn Bool
  | .vint a, .vint b => .ok (decide (b < a))
  | .vstr a, .vstr b => .ok (decide (b < a))
  | _, _ => .error .typeError

/-- Python `max` over a non-empty list of raw values. -/
def pyMaxVal (v : PyVal) (rest : List PyVal) : Except PyExn PyVal :=
  rest.foldlM (fun m x => do
    let b ← pyGt x m
    pure (if b then x else m)) v

/-- Python `list.index` on raw values. -/
def pyIndexVal (vs : List PyVal) (x : PyVal) : Except PyExn Nat :=
  match vs.findIdx? (fun v => pyEq v x) with
  | some i => .ok i
  | none => .error .valueError

/-- Does `sub` occur as a substring of `s` (Python `sub in s`)? -/
def strContainsSubAux (sub : List Char) : List Char → Bool
  | [] => sub.isEmpty
  | c :: rest => sub.isPrefixOf (c :: rest) || strContainsSubAux sub rest

/-- Python substring containment `sub in s`. -/
def strContainsSub (sub s : String) : Bool :=
  strContainsSubAux sub.data s.data

/-! ## Configuration model (`src/eligibility/config_loader.py` accessors)

The five configuration documents are loaded once and read through
accessors; the engine consumes them as the typed structures below, whose
defaults mirror the `.get(key, default)` calls in the processor. -/

/-- A reason trigger from `reason_detection_rules`. -/
structure Trigger where
  type : String := ""
  check_column : String := ""
  trigger_value : PyVal := .vnone
  deriving DecidableEq, Repr

/-- A facts builder from `reason_detection_rules`. -/
structure FactsBuilder where
  type : String := "simple"
  facts : List String := []
  fact_templates : List String := []
  fields : List String := []
  deriving DecidableEq, Repr

/-- One entry of the ordered `reasons` list of `reason_detection_rules`. -/
structure ReasonConfig where
  reason_code : String := ""
  trigger : Trigger := {}
  facts_builder : FactsBuilder := {}
  evidence_columns : List String := []
  required_facts : List String := []
  deriving DecidableEq, Repr

/-- A next step of a playbook entry. -/
structure NextStep where
  action : String := ""
  owner : String := ""
  deriving DecidableEq, Repr

/-- A `reason_playbook` entry. -/
structure PlaybookEntry where
  meaning : String := ""
  next_steps : List NextStep := []
  review_type : String := ""
  review_timing : String := ""
  constraints : List String := []
  deriving DecidableEq, Repr

/-- An `explanation_playbook` entry. -/
structure ExplanationRule where
  required_facts : List String := []
  evidence_validation : String := ""
  deriving DecidableEq, Repr

/-- An `evidence_display_rules` entry.  `display_lines` and
`missing_error` are optional because the code reads them with defaults
depending on the reason code. -/
structure DisplayRule where
  has_evidence : Bool := false
  display_lines : Option (List String) := none
  required_fields : List String := []
  format_template : List String := []
  missing_error : Option String := none
  deriving DecidableEq, Repr

/-- The `normalization_rules` of the checks catalog. -/
structure ChecksCatalog where
  blank_string_values : List PyVal := [.vstr "", .vstr " ", .vnone]
  convert_blanks_to_zero_for_numeric_fields : List String := []
  deriving DecidableEq, Repr

/-- All configuration documents, as exposed by the `ConfigLoader`
accessors. -/
structure Config where
  checks_catalog : ChecksCatalog := {}
  reason_detection_rules : List ReasonConfig := []
  reason_playbook : List (String × PlaybookEntry) := []
  explanation_playbook : List (String × ExplanationRule) := []
  evidence_display_rules : List (String × DisplayRule) := []
  deriving DecidableEq, Repr

/-- The two account indexes built by `DataLoader` (keyed dictionaries;
duplicate source rows were already dropped at load, first occurrence
winning). -/
structure DataStore where
  eligible_customers : List (String × Record) := []
  reasons_file : List (String × Record) := []
  deriving DecidableEq, Repr

/-- Embedding of `DataLoader.is_eligible`. -/
def is_eligible (d : DataStore) (account_number : String) : Bool :=
  alistContains d.eligible_customers account_number

/-- Embedding of `DataLoader.has_ineligibility_reasons`. -/
def has_ineligibility_reasons (d : DataStore) (account_number : String) : Bool :=
  alistContains d.reasons_file account_number

/-- Embedding of `DataLoader.get_reasons_record`. -/
def get_reasons_record (d : DataStore) (account_number : String) : Option Record :=
  alistGet? d.reasons_file account_number

/-! ## EligibilityProcessor (`src/eligibility/eligibility_processor.py`) -/

/-- One extracted reason, with the enrichment fields added by
`_validate_and_enrich_reasons` (defaulted until enrichment runs). -/
structure Reason where
  code : String := ""
  meaning : String := ""
  facts : List String := []
  evidence : Record := []
  next_steps : List NextStep := []
  review_type : String := ""
  review_timing : String := ""
  constraints : List String := []
  evidence_display : List String := []
  validation_status : String := ""
  required_facts : List String := []
  missing_facts : List String := []
  evidence_validation_rule : String := ""
  explanation_status : String := ""
  explanation_error : Option String := none
  deriving DecidableEq, Repr

/-- A per-account result as produced by `_process_single_account`. -/
structure AccountResult where
  account_number : String := ""
  account_number_hash : String := ""
  customer_name : PyVal := .vstr "Unknown"
  status : String := ""
  reasons : List Reason := []
  deriving DecidableEq, Repr

/-- Embedding of `_normalize_record`: configured blank sentinels become
the empty string, then configured numeric fields with an empty-string
value become the integer zero. -/
def normalize_record (record : Record) (cc : ChecksCatalog) : Record :=
  let normalized := record.map fun kv =>
    if cc.blank_string_values.any (fun b => pyEq kv.2 b) then (kv.1, PyVal.vstr "")
    else kv
  cc.convert_blanks_to_zero_for_numeric_fields.foldl
    (fun acc field =>
      if alistContains acc field && pyEq (alistGetD acc field .vnone) (.vstr "") then
        alistSet acc field (.vint 0)
      else acc)
    normalized

/-- Embedding of `_check_trigger`: `check_equals` and
`check_special_equals` both test exact equality of the normalized column
value against the trigger value; any other trigger type is false. -/
def check_trigger (trigger : Trigger) (normalized_record : Record) : Bool :=
  if trigger.type == "check_equals" then
    pyEq (alistGetD normalized_record trigger.check_column .vnone) trigger.trigger_value
  else if trigger.type == "check_special_equals" then
    pyEq (alistGetD normalized_record trigger.check_column .vnone) trigger.trigger_value
  else false

/-- Result of `_build_facts`: either a bare facts list (legacy builders)
or a dict with facts and evidence. -/
inductive FactsResult where
  | legacy (facts : List String)
  | withEvidence (facts : List String) (evidence : Record)
  deriving DecidableEq, Repr

/-- Substitute `\x7bname\x7d` placeholders of every record column into a
template, in record (insertion) order. -/
def substRecord (record : Record) (template : String) : String :=
  record.foldl
    (fun fact kv => pyReplace fact ("\x7b" ++ kv.1 ++ "\x7d") (pyStr kv.2))
    template

/-- Embedding of `_build_facts`, dispatching on the builder kind.  The
two `max` builders thread `Except` because Python's `max`, `list.index`
and `int()` can raise on pathological data. -/
def build_facts (reason_config : ReasonConfig) (normalized_record : Record) :
    Except PyExn FactsResult :=
  let facts_builder := reason_config.facts_builder
  let builder_type := facts_builder.type
  if builder_type == "simple" then
    .ok (.legacy facts_builder.facts)
  else if builder_type == "simple_with_evidence" then
    let evidence := reason_config.evidence_columns.foldl
      (fun ev col =>
        if alistContains normalized_record col then
          alistSet ev (pyToLower col) (alistGetD normalized_record col .vnone)
        else ev)
      []
    let facts := facts_builder.fact_templates.map fun template =>
      let afterRequired := reason_config.required_facts.foldl
        (fun fact req_field =>
          match alistGet? evidence req_field with
          | some v => pyReplace fact ("\x7b" ++ req_field ++ "\x7d") (pyStr v)
          | none => fact)
        template
      substRecord normalized_record afterRequired
    .ok (.withEvidence facts evidence)
  else if builder_type == "simple_with_parameters" then
    .ok (.legacy (facts_builder.fact_templates.map (substRecord normalized_record)))
  else if builder_type == "max_of_numeric_fields_with_evidence" then do
    let fields := facts_builder.fields
    let values := fields.map fun field =>
      coerceFloat (alistGetD normalized_record field (.vint 0))
    let field_mapping : List (String × PyFloat) := fields.map fun field =>
      (field, coerceFloat (alistGetD normalized_record field (.vint 0)))
    let max_value :=
      match values with
      | [] => PyFloat.fin 0
      | v :: rest => pyMaxFloat v rest
    let max_field ←
      if !values.isEmpty && fgt max_value (.fin 0) then do
        let i ← pyIndexFloat values max_value
        pure (fields.getD i "")
      else pure ""
    let arrears ← pyIntOfFloat (alistGetD field_mapping "Arrears_Days" (.fin 0))
    let ccod ← pyIntOfFloat (alistGetD field_mapping "Credit_Card_OD_Days" (.fin 0))
    let dpd ← pyIntOfFloat (alistGetD field_mapping "DPD_Days" (.fin 0))
    let maxdpd ← pyIntOfFloat max_value
    let evidence : Record :=
      [("arrears_days", .vint arrears), ("credit_card_od_days", .vint ccod),
       ("dpd_days", .vint dpd), ("max_dpd_driver", .vint maxdpd),
       ("driver_source", .vstr max_field)]
    let facts := facts_builder.fact_templates.map fun template =>
      pyReplace
        (pyReplace
          (pyReplace
            (pyReplace (pyReplace template "\x7barrears_days\x7d" (toString arrears))
              "\x7bcredit_card_od_days\x7d" (toString ccod))
            "\x7bdpd_days\x7d" (toString dpd))
          "\x7bmax_dpd_driver\x7d" (toString maxdpd))
        "\x7bdriver_source\x7d" max_field
    pure (.withEvidence facts evidence)
  else if builder_type == "max_of_numeric_fields" then do
    let fields := facts_builder.fields
    let values := fields.map fun field => alistGetD normalized_record field (.vint 0)
    let max_value ←
      match values with
      | [] => pure (PyVal.vint 0)
      | v :: rest => pyMaxVal v rest
    let cond ←
      if values.isEmpty then pure false
      else pyGt max_value (.vint 0)
    let max_field ←
      if cond then do
        let i ← pyIndexVal values max_value
        pure (fields.getD i "")
      else pure ""
    pure (.legacy (facts_builder.fact_templates.map fun template =>
      pyReplace (pyReplace template "\x7bmax_value\x7d" (pyStr max_value))
        "\x7bmax_field\x7d" max_field))
  else
    .ok (.legacy [])

/-- Embedding of `_build_evidence_display`. -/
def build_evidence_display (edr : List (String × DisplayRule))
    (reason_code : String) (evidence : Record) : List String :=
  let rule := alistGetD edr reason_code {}
  if !rule.has_evidence then
    rule.display_lines.getD ["Evidence: " ++ reason_code]
  else
    let missing_fields := rule.required_fields.filter fun field =>
      match alistGet? evidence field with
      | none => true
      | some v => v == PyVal.vnone
    if !missing_fields.isEmpty then
      ["⚠️ " ++ rule.missing_error.getD "Evidence missing"]
    else
      rule.format_template.map fun template_line =>
        evidence.foldl
          (fun line kv =>
            let placeholder := "\x7b" ++ kv.1 ++ "\x7d"
            if strContainsSub placeholder line then
              pyReplace line placeholder (pyStr kv.2)
            else line)
          template_line

/-- Embedding of `_get_explanation_validation_error`: `None` when
validation passed, otherwise the text after the last `output: ` marker of
the rule's validation text (whitespace- and quote-stripped), or a generic
fallback naming the lower-cased reason code. -/
def get_explanation_validation_error (ep : List (String × ExplanationRule))
    (reason_code : String) (validation_passed : Bool) : Option String :=
  if validation_passed then none
  else
    let explanation_config := alistGetD ep reason_code {}
    let evidence_validation := explanation_config.evidence_validation
    if strContainsSub "output: " evidence_validation then
      some (pyStripWith (fun c => c = Char.ofNat 39 || c = '"')
        (pyStrip ((pySplitOn evidence_validation "output: ").getLastD
          evidence_validation)))
    else
      some ("Cannot confirm " ++ pyToLower reason_code ++
        " (missing required evidence).")

/-- Is a required fact key absent from the evidence, or present with
value `None`?  (The test performed by `_validate_and_enrich_reasons`.) -/
def missingFactTest (evidence : Record) (k : String) : Bool :=
  match alistGet? evidence k with
  | none => true
  | some v => v == PyVal.vnone

/-- One iteration of the required-facts loop of
`_validate_and_enrich_reasons`: a fact absent from the evidence or
present with value `None` clears the passed flag and is appended to the
missing list. -/
def enrichStep (ev : Record) (acc : Bool × List String) (k : String) :
    Bool × List String :=
  match alistGet? ev k with
  | none => (false, acc.2 ++ [k])
  | some v => if v == PyVal.vnone then (false, acc.2 ++ [k]) else acc

/-- Per-reason body of `_validate_and_enrich_reasons`: look up the
explanation rule, collect missing required facts, set validation and
explanation fields. -/
def enrichReason (ep : List (String × ExplanationRule)) (reason : Reason) : Reason :=
  let explanation_config := alistGetD ep reason.code {}
  let required_facts := explanation_config.required_facts
  let acc := required_facts.foldl (enrichStep reason.evidence) (true, [])
  let validation_passed := acc.1
  let missing_facts := acc.2
  { reason with
    validation_status := if validation_passed then "passed" else "failed"
    required_facts := required_facts
    missing_facts := missing_facts
    evidence_validation_rule := explanation_config.evidence_validation
    explanation_status := if validation_passed then "ready" else "blocked"
    explanation_error :=
      get_explanation_validation_error ep reason.code validation_passed }

/-- Embedding of `_validate_and_enrich_reasons` (a per-element map). -/
def validate_and_enrich_reasons (ep : List (String × ExplanationRule))
    (reasons : List Reason) : List Reason :=
  reasons.map (enrichReason ep)

/-- The trigger-and-build loop of `_extract_ineligibility_reasons` over
the ordered reason definitions. -/
def extractReasonsLoop (cfg : Config) (normalized_record : Record) :
    List ReasonConfig → Except PyExn (List Reason)
  | [] => .ok []
  | rc :: rest =>
    if check_trigger rc.trigger normalized_record then do
      let facts_result ← build_facts rc normalized_record
      let (facts, evidence) :=
        match facts_result with
        | .withEvidence f e => (f, e)
        | .legacy f => (f, ([] : Record))
      let playbook_entry := alistGetD cfg.reason_playbook rc.reason_code {}
      let reason_obj : Reason :=
        { code := rc.reason_code
          meaning := playbook_entry.meaning
          facts := facts
          evidence := evidence
          next_steps := playbook_entry.next_steps
          review_type := playbook_entry.review_type
          review_timing := playbook_entry.review_timing
          constraints := playbook_entry.constraints
          evidence_display := build_evidence_display cfg.evidence_display_rules
            rc.reason_code evidence }
      let more ← extractReasonsLoop cfg normalized_record rest
      pure (reason_obj :: more)
    else
      extractReasonsLoop cfg normalized_record rest

/-- Embedding of `_extract_ineligibility_reasons`. -/
def extract_ineligibility_reasons (cfg : Config) (account_number : String)
    (reasons_record : Record) (account_hash : String) :
    Except PyExn AccountResult := do
  let normalized_record := normalize_record reasons_record cfg.checks_catalog
  let extracted ← extractReasonsLoop cfg normalized_record cfg.reason_detection_rules
  let raw_name := alistGetD reasons_record "CUSTOMERNAMES" (.vstr "Unknown")
  let customer_name :=
    if !pyTruthy raw_name || pyEq raw_name (.vstr "") then PyVal.vstr "Unknown"
    else raw_name
  pure
    { account_number := account_number
      account_number_hash := account_hash
      customer_name := customer_name
      status := "NOT_ELIGIBLE"
      reasons := validate_and_enrich_reasons cfg.explanation_playbook extracted }

/-- Embedding of `_process_single_account`: the eligible index is checked
first, then the reasons index, else `CANNOT_CONFIRM`.  `hashFn` stands
for the logger's one-way hash of the identifier. -/
def process_single_account (cfg : Config) (d : DataStore)
    (hashFn : String → String) (account_number : String) :
    Except PyExn AccountResult :=
  let account_hash := hashFn account_number
  if is_eligible d account_number then
    .ok
      { account_number := account_number
        account_number_hash := account_hash
        customer_name := .vstr "Unknown"
        status := "ELIGIBLE"
        reasons := [] }
  else if has_ineligibility_reasons d account_number then
    extract_ineligibility_reasons cfg account_number
      ((get_reasons_record d account_number).getD []) account_hash
  else
    .ok
      { account_number := account_number
        account_number_hash := account_hash
        customer_name := .vstr "Unknown"
        status := "CANNOT_CONFIRM"
        reasons := [] }

/-- The per-account loop of `process_accounts`. -/
def processLoop (cfg : Config) (d : DataStore) (hashFn : String → String) :
    List String → Except PyExn (List AccountResult)
  | [] => .ok []
  | a :: rest => do
    let r ← process_single_account cfg d hashFn a
    let more ← processLoop cfg d hashFn rest
    pure (r :: more)

/-- Embedding of `EligibilityProcessor.process_accounts`: empty input
returns an empty list; otherwise every account is processed in order. -/
def process_accounts (cfg : Config) (d : DataStore) (hashFn : String → String)
    (account_numbers : List String) : Except PyExn (List AccountResult) :=
  if account_numbers.isEmpty then .ok []
  else processLoop cfg d hashFn account_numbers

/-! ## LLMPayloadBuilder (`src/eligibility/llm_payload_builder.py`) -/

/-- A UTC wall-clock instant as `datetime.now(timezone.utc)` observes it. -/
structure UtcDateTime where
  year : Nat := 2026
  month : Nat := 1
  day : Nat := 1
  hour : Nat := 0
  minute : Nat := 0
  second : Nat := 0
  microsecond : Nat := 0
  deriving DecidableEq, Repr

/-- Zero-pad a natural number to a width (Python `%0wd`). -/
def padZ (w n : Nat) : String :=
  let s := toString n
  String.mk (List.replicate (w - s.length) '0') ++ s

/-- The date-time part of `datetime.isoformat()` (before the offset):
microsecond precision, omitted when the microsecond field is zero. -/
def isoCoreUtc (t : UtcDateTime) : String :=
  padZ 4 t.year ++ "-" ++ padZ 2 t.month ++ "-" ++ padZ 2 t.day ++ "T" ++
    padZ 2 t.hour ++ ":" ++ padZ 2 t.minute ++ ":" ++ padZ 2 t.second ++
    (if t.microsecond == 0 then "" else "." ++ padZ 6 t.microsecond)

/-- Python `datetime.isoformat()` on an aware UTC datetime: the date-time
core followed by the `+00:00` offset suffix. -/
def pyIsoformatUtc (t : UtcDateTime) : String :=
  isoCoreUtc t ++ "+00:00"

/-- The payload's timestamp expression
`datetime.now(timezone.utc).isoformat() + "Z"`. -/
def batchTimestamp (t : UtcDateTime) : String := pyIsoformatUtc t ++ "Z"

/-! ## C8: the batch timestamp

The claim reads the spec: an ISO-8601 UTC timestamp with millisecond
precision and a single trailing `Z`.  The predicate below formalises that
wording: the string ends in `Z`, the four characters before the `Z` are a
dot followed by exactly the millisecond digits, and everything earlier is
made of digits and the date-time separators only (in particular no second
`Z`, no further dot, and no numeric offset sign). -/

/-- Does the string have the claimed shape
`YYYY-MM-DDTHH:MM:SS.mmmZ` (millisecond precision, single trailing Z,
no numeric UTC offset)? -/
def isIsoMillisUtcZ (s : String) : Bool :=
  let r := s.data.reverse
  (r.getD 0 ' ' == 'Z') && (r.getD 1 ' ').isDigit && (r.getD 2 ' ').isDigit &&
    (r.getD 3 ' ').isDigit && (r.getD 4 ' ' == '.') &&
    (r.drop 5).all fun ch => ch.isDigit || ch == '-' || ch == ':' || ch == 'T'


/-- The payload summary.  `reasons_ready_for_llm` is optional because the
minimal payload for empty results omits that key. -/
structure Summary where
  total_accounts : Nat := 0
  eligible_count : Nat := 0
  not_eligible_count : Nat := 0
  cannot_confirm_count : Nat := 0
  total_reasons_extracted : Nat := 0
  reasons_ready_for_llm : Option Nat := none
  processing_latency_ms : ℚ := 0
  deriving DecidableEq, Repr

/-- The top-level payload returned by the builder. -/
structure Payload where
  request_id : String := ""
  batch_timestamp : String := ""
  accounts : List AccountResult := []
  summary : Summary := {}
  deriving DecidableEq, Repr

/-- Embedding of `LLMPayloadBuilder._build_empty_payload`. -/
def build_empty_payload (request_id : String) (now : UtcDateTime) : Payload :=
  { request_id := request_id
    batch_timestamp := batchTimestamp now
    accounts := []
    summary :=
      { total_accounts := 0, eligible_count := 0, not_eligible_count := 0,
        cannot_confirm_count := 0, total_reasons_extracted := 0,
        reasons_ready_for_llm := none, processing_latency_ms := 0 } }

/-- Embedding of `LLMPayloadBuilder.build`: empty results yield the
minimal payload, otherwise the summary is computed by one scan of the
results.  `now` stands for the wall clock read during the build. -/
def build (eligibility_results : List AccountResult) (request_id : String)
    (now : UtcDateTime) (processing_latency_ms : ℚ) : Payload :=
  if eligibility_results.isEmpty then build_empty_payload request_id now
  else
    let eligible_count := eligibility_results.countP fun r => r.status == "ELIGIBLE"
    let not_eligible_count :=
      eligibility_results.countP fun r => r.status == "NOT_ELIGIBLE"
    let cannot_confirm_count :=
      eligibility_results.countP fun r => r.status == "CANNOT_CONFIRM"
    let total_reasons_count :=
      eligibility_results.foldl (fun acc r => acc + r.reasons.length) 0
    let ready_for_llm_count :=
      eligibility_results.foldl
        (fun acc r =>
          acc + r.reasons.countP fun reason => reason.explanation_status == "ready")
        0
    { request_id := request_id
      batch_timestamp := batchTimestamp now
      accounts := eligibility_results
      summary :=
        { total_accounts := eligibility_results.length
          eligible_count := eligible_count
          not_eligible_count := not_eligible_count
          cannot_confirm_count := cannot_confirm_count
          total_reasons_extracted := total_reasons_count
          reasons_ready_for_llm := some ready_for_llm_count
          processing_latency_ms := processing_latency_ms } }

/-! ## EligibilityOrchestrator (`src/eligibility/orchestrator.py`) -/

/-- The structured error response of `_build_error_response`.  The five
summary counts of the nested `summary` dict are flattened into fields. -/
structure ErrorResponse where
  request_id : String := ""
  status : String := "ERROR"
  error_type : String := ""
  error_message : String := ""
  accounts : List AccountResult := []
  total_accounts : Nat := 0
  eligible_count : Nat := 0
  not_eligible_count : Nat := 0
  cannot_confirm_count : Nat := 0
  total_reasons_extracted : Nat := 0
  deriving DecidableEq, Repr

/-- Embedding of `_build_error_response`. -/
def build_error_response (request_id error_type error_message : String) :
    ErrorResponse :=
  { request_id := request_id
    status := "ERROR"
    error_type := error_type
    error_message := error_message
    accounts := []
    total_accounts := 0
    eligible_count := 0
    not_eligible_count := 0
    cannot_confirm_count := 0
    total_reasons_extracted := 0 }

/-- What `process_message` hands back to its caller: `None`, a success
payload, or a structured error payload. -/
inductive OrchResult where
  | none
  | payload (p : Payload)
  | errorPayload (e : ErrorResponse)
  deriving DecidableEq, Repr

/-- The pipeline components as the orchestrator calls them.  Each is an
`Except` computation so that an unexpected exception inside any step can
be expressed; the orchestrator's `try`/`except` catches them all. -/
structure Components where
  detect : String → Except PyExn (Bool × String)
  extract : String → Except PyExn (List String)
  validate : List String → Except PyExn (List String × List String)
  process : List String → Except PyExn (List AccountResult)
  build : List AccountResult → Except PyExn Payload

/-- Embedding of `EligibilityOrchestrator.process_message`: the guarded
pipeline, with every exception converted to the generic error response. -/
def process_message (c : Components) (request_id : String)
    (user_message : String) : OrchResult :=
  let run : Except PyExn OrchResult := do
    let det ← c.detect user_message
    if !det.1 then
      pure .none
    else do
      let account_numbers ← c.extract user_message
      if account_numbers.isEmpty then
        pure (.errorPayload (build_error_response request_id
          "No account numbers found"
          "Please share the 10-digit account number(s) so I can confirm eligibility."))
      else do
        let va ← c.validate account_numbers
        if va.1.isEmpty then
          pure (.errorPayload (build_error_response request_id
            "Invalid account numbers"
            ("The following account numbers are invalid: " ++
              String.intercalate ", " va.2 ++
              ". Account numbers must be exactly 10 digits.")))
        else do
          let eligibility_results ← c.process va.1
          if eligibility_results.isEmpty then
            pure (.errorPayload (build_error_response request_id
              "Processing failed"
              "Unable to process eligibility check. Please try again."))
          else do
            let payload ← c.build eligibility_results
            pure (.payload payload)
  match run with
  | .ok r => r
  | .error _ =>
    .errorPayload (build_error_response request_id "Processing error"
      "An error occurred while processing your eligibility check. Please try again.")

/-! ## Helper lemmas -/

theorem except_bind_ok {α β : Type} {x : Except PyExn α}
    {f : α → Except PyExn β} {b : β} :
    x >>= f = Except.ok b ↔ ∃ a, x = Except.ok a ∧ f a = Except.ok b := by
  cases x with
  | ok a => simp [Bind.bind, Except.bind]
  | error e => simp [Bind.bind, Except.bind]

theorem extract_ineligibility_fields (cfg : Config) (a : String) (rec : Record)
    (h : String) (r : AccountResult)
    (hr : extract_ineligibility_reasons cfg a rec h = Except.ok r) :
    r.status = "NOT_ELIGIBLE" ∧ r.account_number = a ∧
      r.account_number_hash = h := by
  cases hE : extractReasonsLoop cfg (normalize_record rec cfg.checks_catalog)
      cfg.reason_detection_rules with
  | error e =>
    simp [extract_ineligibility_reasons, hE, Bind.bind, Except.bind] at hr
  | ok l =>
    simp [extract_ineligibility_reasons, hE, Bind.bind, Except.bind, pure,
      Except.pure] at hr
    subst hr
    exact ⟨rfl, rfl, rfl⟩

/-- C1: for every account identifier evaluated by the eligibility
processor, membership in the eligible-customers index yields `ELIGIBLE`
with no reasons (this lookup comes first, so it wins when an identifier
is in both indexes); otherwise membership in the reasons-file index
yields `NOT_ELIGIBLE`; otherwise the result is `CANNOT_CONFIRM` with no
reasons. -/
theorem C1_eligibility_status_lookup (cfg : Config) (d : DataStore)
    (hashFn : String → String) (a : String) :
    (is_eligible d a = true →
      process_single_account cfg d hashFn a =
        Except.ok { account_number := a, account_number_hash := hashFn a,
                    customer_name := .vstr "Unknown", status := "ELIGIBLE",
                    reasons := [] }) ∧
    (is_eligible d a = false → has_ineligibility_reasons d a = true →
      ∀ r, process_single_account cfg d hashFn a = Except.ok r →
        r.status = "NOT_ELIGIBLE") ∧
    (is_eligible d a = false → has_ineligibility_reasons d a = false →
      process_single_account cfg d hashFn a =
        Except.ok { account_number := a, account_number_hash := hashFn a,
                    customer_name := .vstr "Unknown",
                    status := "CANNOT_CONFIRM", reasons := [] }) := by
  refine ⟨fun h1 => ?_, fun h1 h2 r hr => ?_, fun h1 h2 => ?_⟩
  · simp [process_single_account, h1]
  · simp [process_single_account, h1, h2] at hr
    exact (extract_ineligibility_fields _ _ _ _ _ hr).1
  · simp [process_single_account, h1, h2]

theorem C1_eligibility_status_lookup_witness :
    process_single_account {}
        { eligible_customers := [("1234567890", [])],
          reasons_file := [("1234567890", []), ("9999999999", [])] }
        (fun _ => "h") "1234567890" =
      Except.ok { account_number := "1234567890", account_number_hash := "h",
                  customer_name := .vstr "Unknown", status := "ELIGIBLE",
                  reasons := [] } ∧
    AccountResult.status
        { account_number := "9999999999", account_number_hash := "h",
          customer_name := .vstr "Unknown", status := "NOT_ELIGIBLE",
          reasons := [] } = "NOT_ELIGIBLE" ∧
    process_single_account {}
        { eligible_customers := [("1234567890", [])],
          reasons_file := [("1234567890", []), ("9999999999", [])] }
        (fun _ => "h") "0000000000" =
      Except.ok { account_number := "0000000000", account_number_hash := "h",
                  customer_name := .vstr "Unknown", status := "CANNOT_CONFIRM",
                  reasons := [] } :=
  ⟨(C1_eligibility_status_lookup {} _ (fun _ => "h") "1234567890").1 (by decide),
   (C1_eligibility_status_lookup {}
      { eligible_customers := [("1234567890", [])],
        reasons_file := [("1234567890", []), ("9999999999", [])] }
      (fun _ => "h") "9999999999").2.1 (by decide) (by decide) _ (by rfl),
   (C1_eligibility_status_lookup {} _ (fun _ => "h") "0000000000").2.2
      (by decide) (by decide)⟩

theorem process_single_fields (cfg : Config) (d : DataStore)
    (hashFn : String → String) (a : String) (r : AccountResult)
    (hr : process_single_account cfg d hashFn a = Except.ok r) :
    r.account_number = a ∧
      (r.status = "ELIGIBLE" ∨ r.status = "NOT_ELIGIBLE" ∨
        r.status = "CANNOT_CONFIRM") := by
  by_cases h1 : is_eligible d a
  · simp [process_single_account, h1] at hr
    subst hr
    exact ⟨rfl, Or.inl rfl⟩
  · by_cases h2 : has_ineligibility_reasons d a
    · simp [process_single_account, h1, h2] at hr
      have hf := extract_ineligibility_fields _ _ _ _ _ hr
      exact ⟨hf.2.1, Or.inr (Or.inl hf.1)⟩
    · simp [process_single_account, h1, h2] at hr
      subst hr
      exact ⟨rfl, Or.inr (Or.inr rfl)⟩

theorem processLoop_ok_forall2 (cfg : Config) (d : DataStore)
    (hashFn : String → String) :
    ∀ (xs : List String) (ys : List AccountResult),
      processLoop cfg d hashFn xs = Except.ok ys →
      List.Forall₂ (fun a r => r.account_number = a ∧
        (r.status = "ELIGIBLE" ∨ r.status = "NOT_ELIGIBLE" ∨
          r.status = "CANNOT_CONFIRM")) xs ys := by
  intro xs
  induction xs with
  | nil =>
    intro ys h
    simp [processLoop, pure, Except.pure] at h
    subst h
    exact .nil
  | cons a rest ih =>
    intro ys h
    simp only [processLoop] at h
    rw [except_bind_ok] at h
    obtain ⟨r, hr, h2⟩ := h
    rw [except_bind_ok] at h2
    obtain ⟨more, hm, h3⟩ := h2
    simp [pure, Except.pure] at h3
    subst h3
    exact .cons (process_single_fields _ _ _ _ _ hr) (ih more hm)

theorem build_error_response_error_type (rid et em : String) :
    (build_error_response rid et em).error_type = et := rfl

/-- C10: on a non-empty account list, `process_accounts` (when it
completes) returns exactly one result per input identifier, in input
order, each with a status among the three valid values; hence the
orchestrator's "Processing failed" branch can never fire with the real
processor.  -/
theorem C10_process_accounts_shape (cfg : Config) (d : DataStore)
    (hashFn : String → String) :
    (∀ (accounts : List String) (rs : List AccountResult),
      accounts ≠ [] → process_accounts cfg d hashFn accounts = Except.ok rs →
      rs ≠ [] ∧ rs.length = accounts.length ∧
        List.Forall₂ (fun a r => r.account_number = a ∧
          (r.status = "ELIGIBLE" ∨ r.status = "NOT_ELIGIBLE" ∨
            r.status = "CANNOT_CONFIRM")) accounts rs) ∧
    (∀ (det : String → Except PyExn (Bool × String))
       (ext : String → Except PyExn (List String))
       (val : List String → Except PyExn (List String × List String))
       (bld : List AccountResult → Except PyExn Payload)
       (rid msg : String) (e : ErrorResponse),
      process_message
        { detect := det, extract := ext, validate := val,
          process := process_accounts cfg d hashFn, build := bld } rid msg =
        OrchResult.errorPayload e →
      e.error_type ≠ "Processing failed") := by
  constructor
  · intro accounts rs hne hok
    have hE : accounts.isEmpty = false := by
      cases accounts with
      | nil => exact absurd rfl hne
      | cons a t => rfl
    rw [process_accounts, hE] at hok
    simp only [Bool.false_eq_true, if_false] at hok
    have hf := processLoop_ok_forall2 cfg d hashFn accounts rs hok
    have hlen := hf.length_eq
    refine ⟨?_, hlen.symm, hf⟩
    intro hrs
    subst hrs
    simp at hlen
    exact hne hlen
  · intro det ext val bld rid msg e h
    cases hdet : det msg with
    | error err =>
      simp [process_message, hdet, Bind.bind, Except.bind] at h
      rw [← h, build_error_response_error_type]
      decide
    | ok pr =>
      obtain ⟨isE, hsh⟩ := pr
      cases isE with
      | false =>
        simp [process_message, hdet, Bind.bind, Except.bind, pure,
          Except.pure] at h
      | true =>
        cases hext : ext msg with
        | error err =>
          simp [process_message, hdet, hext, Bind.bind, Except.bind, pure,
            Except.pure] at h
          rw [← h, build_error_response_error_type]
          decide
        | ok accs =>
          by_cases haccs : accs.isEmpty
          · simp [process_message, hdet, hext, haccs, Bind.bind, Except.bind,
              pure, Except.pure] at h
            rw [← h, build_error_response_error_type]
            decide
          · cases hval : val accs with
            | error err =>
              simp [process_message, hdet, hext, haccs, hval, Bind.bind,
                Except.bind, pure, Except.pure] at h
              rw [← h, build_error_response_error_type]
              decide
            | ok va =>
              obtain ⟨valid, invalid⟩ := va
              by_cases hvalid : valid.isEmpty
              · simp [process_message, hdet, hext, haccs, hval, hvalid,
                  Bind.bind, Except.bind, pure, Except.pure] at h
                rw [← h, build_error_response_error_type]
                decide
              · have hvne : valid ≠ [] := by
                  cases valid with
                  | nil => simp at hvalid
                  | cons a t => simp
                cases hproc : processLoop cfg d hashFn valid with
                | error err =>
                  have hpa : process_accounts cfg d hashFn valid =
                      Except.error err := by
                    rw [process_accounts]
                    cases valid with
                    | nil => exact absurd rfl hvne
                    | cons a t => simpa using hproc
                  simp [process_message, hdet, hext, haccs, hval, hvalid, hpa,
                    Bind.bind, Except.bind, pure, Except.pure] at h
                  rw [← h, build_error_response_error_type]
                  decide
                | ok rs =>
                  have hpa : process_accounts cfg d hashFn valid =
                      Except.ok rs := by
                    rw [process_accounts]
                    cases valid with
                    | nil => exact absurd rfl hvne
                    | cons a t => simpa using hproc
                  have hrs : rs.isEmpty = false := by
                    have hf := processLoop_ok_forall2 cfg d hashFn valid rs hproc
                    have hlen := hf.length_eq
                    cases rs with
                    | nil =>
                      simp at hlen
                      exact absurd hlen hvne
                    | cons a t => rfl
                  cases hbld : bld rs with
                  | error err =>
                    simp [process_message, hdet, hext, haccs, hval, hvalid,
                      hpa, hrs, hbld, Bind.bind, Except.bind, pure,
                      Except.pure] at h
                    rw [← h, build_error_response_error_type]
                    decide
                  | ok p =>
                    simp [process_message, hdet, hext, haccs, hval, hvalid,
                      hpa, hrs, hbld, Bind.bind, Except.bind, pure,
                      Except.pure] at h

theorem C10_process_accounts_shape_witness :
    ([({ account_number := "1234567890", account_number_hash := "h",
         customer_name := .vstr "Unknown", status := "CANNOT_CONFIRM",
         reasons := [] } : AccountResult)] ≠ [] ∧
      [({ account_number := "1234567890", account_number_hash := "h",
          customer_name := .vstr "Unknown", status := "CANNOT_CONFIRM",
          reasons := [] } : AccountResult)].length = ["1234567890"].length ∧
      List.Forall₂ (fun a r => AccountResult.account_number r = a ∧
        (AccountResult.status r = "ELIGIBLE" ∨
          AccountResult.status r = "NOT_ELIGIBLE" ∨
          AccountResult.status r = "CANNOT_CONFIRM")) ["1234567890"]
        [{ account_number := "1234567890", account_number_hash := "h",
           customer_name := .vstr "Unknown", status := "CANNOT_CONFIRM",
           reasons := [] }]) ∧
    (build_error_response "rid" "Processing error"
        "An error occurred while processing your eligibility check. Please try again.").error_type ≠
      "Processing failed" :=
  ⟨(C10_process_accounts_shape {} {} (fun _ => "h")).1 ["1234567890"] _
      (by decide) (by rfl),
   (C10_process_accounts_shape {} {} (fun _ => "h")).2
      (fun _ => Except.error .typeError) (fun _ => Except.ok [])
      (fun _ => Except.ok ([], [])) (fun _ => Except.error .typeError)
      "rid" "msg" _ (by rfl)⟩

theorem ne_nil_isEmpty_false {α : Type} {l : List α} (h : l ≠ []) :
    l.isEmpty = false := by
  cases l with
  | nil => exact absurd rfl h
  | cons a t => rfl

/-- C2: `process_message` is total — for any input it returns `None`, a
payload, or a structured error payload, never an exception — and the
terminal error conditions fire in order: no accounts extracted, no
accounts passing validation, empty processor result; any exception from
any pipeline component is converted to the generic error payload. -/
theorem C2_process_message_total (c : Components) (rid msg : String) :
    (process_message c rid msg = OrchResult.none ∨
      (∃ p, process_message c rid msg = OrchResult.payload p) ∨
      (∃ e, process_message c rid msg = OrchResult.errorPayload e)) ∧
    (∀ h, c.detect msg = Except.ok (false, h) →
      process_message c rid msg = OrchResult.none) ∧
    (∀ h, c.detect msg = Except.ok (true, h) → c.extract msg = Except.ok [] →
      process_message c rid msg = OrchResult.errorPayload
        (build_error_response rid "No account numbers found"
          "Please share the 10-digit account number(s) so I can confirm eligibility.")) ∧
    (∀ h accs inv, c.detect msg = Except.ok (true, h) →
      c.extract msg = Except.ok accs → accs ≠ [] →
      c.validate accs = Except.ok ([], inv) →
      process_message c rid msg = OrchResult.errorPayload
        (build_error_response rid "Invalid account numbers"
          ("The following account numbers are invalid: " ++
            String.intercalate ", " inv ++
            ". Account numbers must be exactly 10 digits."))) ∧
    (∀ h accs valid inv, c.detect msg = Except.ok (true, h) →
      c.extract msg = Except.ok accs → accs ≠ [] →
      c.validate accs = Except.ok (valid, inv) → valid ≠ [] →
      c.process valid = Except.ok [] →
      process_message c rid msg = OrchResult.errorPayload
        (build_error_response rid "Processing failed"
          "Unable to process eligibility check. Please try again.")) ∧
    (∀ err, c.detect msg = Except.error err →
      process_message c rid msg = OrchResult.errorPayload
        (build_error_response rid "Processing error"
          "An error occurred while processing your eligibility check. Please try again.")) ∧
    (∀ h err, c.detect msg = Except.ok (true, h) →
      c.extract msg = Except.error err →
      process_message c rid msg = OrchResult.errorPayload
        (build_error_response rid "Processing error"
          "An error occurred while processing your eligibility check. Please try again.")) ∧
    (∀ h accs err, c.detect msg = Except.ok (true, h) →
      c.extract msg = Except.ok accs → accs ≠ [] →
      c.validate accs = Except.error err →
      process_message c rid msg = OrchResult.errorPayload
        (build_error_response rid "Processing error"
          "An error occurred while processing your eligibility check. Please try again.")) ∧
    (∀ h accs valid inv err, c.detect msg = Except.ok (true, h) →
      c.extract msg = Except.ok accs → accs ≠ [] →
      c.validate accs = Except.ok (valid, inv) → valid ≠ [] →
      c.process valid = Except.error err →
      process_message c rid msg = OrchResult.errorPayload
        (build_error_response rid "Processing error"
          "An error occurred while processing your eligibility check. Please try again.")) ∧
    (∀ h accs valid inv results err, c.detect msg = Except.ok (true, h) →
      c.extract msg = Except.ok accs → accs ≠ [] →
      c.validate accs = Except.ok (valid, inv) → valid ≠ [] →
      c.process valid = Except.ok results → results ≠ [] →
      c.build results = Except.error err →
      process_message c rid msg = OrchResult.errorPayload
        (build_error_response rid "Processing error"
          "An error occurred while processing your eligibility check. Please try again.")) := by
  refine ⟨?_, fun h hdet => ?_, fun h hdet hext => ?_,
    fun h accs inv hdet hext hne hval => ?_,
    fun h accs valid inv hdet hext hne hval hvne hproc => ?_,
    fun err hdet => ?_, fun h err hdet hext => ?_,
    fun h accs err hdet hext hne hval => ?_,
    fun h accs valid inv err hdet hext hne hval hvne hproc => ?_,
    fun h accs valid inv results err hdet hext hne hval hvne hproc hrne hbld => ?_⟩
  · cases hr : process_message c rid msg with
    | none => exact Or.inl rfl
    | payload p => exact Or.inr (Or.inl ⟨p, rfl⟩)
    | errorPayload e => exact Or.inr (Or.inr ⟨e, rfl⟩)
  · simp [process_message, hdet, Bind.bind, Except.bind, pure, Except.pure]
  · simp [process_message, hdet, hext, Bind.bind, Except.bind, pure,
      Except.pure]
  · simp [process_message, hdet, hext, hval, ne_nil_isEmpty_false hne,
      Bind.bind, Except.bind, pure, Except.pure]
  · simp [process_message, hdet, hext, hval, hproc, ne_nil_isEmpty_false hne,
      ne_nil_isEmpty_false hvne, Bind.bind, Except.bind, pure, Except.pure]
  · simp [process_message, hdet, Bind.bind, Except.bind, pure, Except.pure]
  · simp [process_message, hdet, hext, Bind.bind, Except.bind, pure,
      Except.pure]
  · simp [process_message, hdet, hext, hval, ne_nil_isEmpty_false hne,
      Bind.bind, Except.bind, pure, Except.pure]
  · simp [process_message, hdet, hext, hval, hproc, ne_nil_isEmpty_false hne,
      ne_nil_isEmpty_false hvne, Bind.bind, Except.bind, pure, Except.pure]
  · simp [process_message, hdet, hext, hval, hproc, hbld,
      ne_nil_isEmpty_false hne, ne_nil_isEmpty_false hvne,
      ne_nil_isEmpty_false hrne, Bind.bind, Except.bind, pure, Except.pure]

theorem C2_process_message_total_witness :
    process_message
        { detect := fun _ => Except.ok (true, "h"),
          extract := fun _ => Except.ok ["123"],
          validate := fun _ => Except.ok ([], ["123"]),
          process := fun _ => Except.ok [],
          build := fun _ => Except.ok {} } "r" "m" =
      OrchResult.errorPayload
        (build_error_response "r" "Invalid account numbers"
          ("The following account numbers are invalid: " ++
            String.intercalate ", " ["123"] ++
            ". Account numbers must be exactly 10 digits.")) :=
  (C2_process_message_total
      { detect := fun _ => Except.ok (true, "h"),
        extract := fun _ => Except.ok ["123"],
        validate := fun _ => Except.ok ([], ["123"]),
        process := fun _ => Except.ok [],
        build := fun _ => Except.ok {} } "r" "m").2.2.2.1 "h" ["123"] ["123"]
    rfl rfl (by decide) rfl

/-! ## C4: the validation partition -/

theorem is_valid_account_iff (a : String) :
    is_valid_account a = true ↔
      a.length = 10 ∧ ∀ c ∈ a.data, pyStrIsDigitChar c = true := by
  rw [is_valid_account, pyStrIsDigit]
  by_cases h0 : a.isEmpty = true
  · have ha : a = "" := (String.isEmpty_iff a).mp h0
    subst ha
    simp
  · have h0f : a.isEmpty = false := by
      cases hh : a.isEmpty with
      | false => rfl
      | true => exact absurd hh h0
    rw [h0f]
    by_cases h1 : a.length = 10
    · have h1f : (a.length != 10) = false := by simp [h1]
      rw [h1f]
      cases hall : a.data.all pyStrIsDigitChar with
      | false =>
        simp only [h0f, hall, Bool.false_eq_true, if_false, Bool.not_false,
          Bool.and_false, Bool.not_true]
        simp only [← List.all_eq_true]
        simp [hall, h1]
      | true =>
        simp only [h0f, hall, Bool.not_false, Bool.and_true, Bool.not_true,
          Bool.false_eq_true, if_false]
        simp only [← List.all_eq_true]
        simp [hall, h1]
    · have h1t : (a.length != 10) = true := by simp [h1]
      rw [h1t]
      simp [h1]

/-- C4 (amended): `validate` partitions its input, preserving order, into
the strings accepted by `_is_valid_account` — exactly ten characters, all
accepted by Python's `str.isdigit` (Unicode digit characters, which
include but are not limited to the ASCII digits) — and the rest; the two
part lengths sum to the input length; `None` or empty input yields two
empty lists. -/
theorem C4_validate_partition (xs : List String) :
    validate none = ([], []) ∧
    validate (some []) = ([], []) ∧
    validate (some xs) =
      (xs.filter is_valid_account, xs.filter fun a => !is_valid_account a) ∧
    (xs.filter is_valid_account).length +
        (xs.filter fun a => !is_valid_account a).length = xs.length ∧
    (∀ a : String, is_valid_account a = true ↔
      (a.length = 10 ∧ ∀ c ∈ a.data, pyStrIsDigitChar c = true)) := by
  refine ⟨rfl, rfl, ?_, ?_, fun a => is_valid_account_iff a⟩
  · cases xs with
    | nil => rfl
    | cons a t => rfl
  · induction xs with
    | nil => rfl
    | cons a t ih =>
      by_cases h : is_valid_account a = true <;>
        simp [List.filter_cons, h] <;> omega

theorem C4_validate_partition_witness :
    (["12345678", "1234567890"].filter is_valid_account).length +
        (["12345678", "1234567890"].filter
          fun a => !is_valid_account a).length = ["12345678", "1234567890"].length ∧
    (is_valid_account "1234567890" = true ↔
      (("1234567890" : String).length = 10 ∧
        ∀ c ∈ ("1234567890" : String).data, pyStrIsDigitChar c = true)) :=
  ⟨(C4_validate_partition ["12345678", "1234567890"]).2.2.2.1,
   (C4_validate_partition ["12345678", "1234567890"]).2.2.2.2 "1234567890"⟩

/-- C4 counterexample: the claim requires a string to be placed in
`valid` only when it consists of ASCII digits, but a ten-character string
of Arabic-Indic digits — which contains no ASCII digit at all — is
accepted by the code (`str.isdigit` is Unicode-aware). -/
theorem C4_validate_counterexample :
    validate (some ["٣٣٣٣٣٣٣٣٣٣"]) = (["٣٣٣٣٣٣٣٣٣٣"], []) ∧
    ("٣٣٣٣٣٣٣٣٣٣".data.all Char.isDigit) = false := by
  constructor
  · rfl
  · decide

/-! ## Payload-builder lemmas -/

theorem countP_three_statuses (l : List AccountResult)
    (h : ∀ r ∈ l, r.status = "ELIGIBLE" ∨ r.status = "NOT_ELIGIBLE" ∨
      r.status = "CANNOT_CONFIRM") :
    l.countP (fun r => r.status == "ELIGIBLE") +
      l.countP (fun r => r.status == "NOT_ELIGIBLE") +
      l.countP (fun r => r.status == "CANNOT_CONFIRM") = l.length := by
  induction l with
  | nil => simp
  | cons a t ih =>
    have ha := h a (List.mem_cons_self a t)
    have ih2 := ih fun r hr => h r (List.mem_cons_of_mem a hr)
    rcases ha with ha | ha | ha <;>
      simp [List.countP_cons, ha] <;> omega

theorem foldl_add_map {α : Type} (f : α → Nat) :
    ∀ (l : List α) (n : Nat),
      l.foldl (fun acc r => acc + f r) n = n + (l.map f).sum := by
  intro l
  induction l with
  | nil => simp
  | cons a t ih =>
    intro n
    simp only [List.foldl_cons, List.map_cons, List.sum_cons]
    rw [ih]
    omega

/-- C5: for every payload built from a list of account results, the three
status tallies sum to the total, the total equals the number of accounts,
and the extracted-reason count is the sum of the per-account reason-list
lengths. -/
theorem C5_summary_invariant (results : List AccountResult) (rid : String)
    (now : UtcDateTime) (lat : ℚ)
    (h : ∀ r ∈ results, r.status = "ELIGIBLE" ∨ r.status = "NOT_ELIGIBLE" ∨
      r.status = "CANNOT_CONFIRM") :
    (build results rid now lat).summary.eligible_count +
        (build results rid now lat).summary.not_eligible_count +
        (build results rid now lat).summary.cannot_confirm_count =
      (build results rid now lat).summary.total_accounts ∧
    (build results rid now lat).summary.total_accounts =
      (build results rid now lat).accounts.length ∧
    (build results rid now lat).summary.total_reasons_extracted =
      (results.map fun r => r.reasons.length).sum := by
  by_cases he : results.isEmpty
  · have hnil : results = [] := by
      cases results with
      | nil => rfl
      | cons a t => simp at he
    subst hnil
    simp [build, build_empty_payload]
  · refine ⟨?_, ?_, ?_⟩
    · simpa [build, he] using countP_three_statuses results h
    · simp [build, he]
    · simpa [build, he] using foldl_add_map (fun r => r.reasons.length) results 0

theorem build_batch_timestamp (results : List AccountResult) (rid : String)
    (now : UtcDateTime) (lat : ℚ) :
    (build results rid now lat).batch_timestamp = batchTimestamp now := by
  by_cases he : results.isEmpty <;> simp [build, build_empty_payload, he]

/-- C8: the `batch_timestamp` of every built payload (including the
minimal payload for empty results) ends in `+00:00Z` — the microsecond
`isoformat` of an offset-aware datetime with a literal `Z` appended — and
therefore never has the claimed millisecond-precision single-trailing-`Z`
shape; the last conjunct shows the claimed shape itself is satisfiable,
so the predicate is not vacuous. -/
theorem C8_batch_timestamp_shape (results : List AccountResult) (rid : String)
    (now : UtcDateTime) (lat : ℚ) :
    List.IsSuffix "+00:00Z".data
        (build results rid now lat).batch_timestamp.data ∧
    isIsoMillisUtcZ (build results rid now lat).batch_timestamp = false ∧
    isIsoMillisUtcZ "2026-01-02T03:04:05.123Z" = true := by
  rw [build_batch_timestamp]
  have hb : batchTimestamp now = isoCoreUtc now ++ "+00:00Z" := by
    rw [batchTimestamp, pyIsoformatUtc, String.append_assoc]
    rfl
  rw [hb]
  refine ⟨?_, ?_, by decide⟩
  · exact ⟨(isoCoreUtc now).data, (String.data_append _ _).symm⟩
  · rw [isIsoMillisUtcZ]
    rw [String.data_append]
    have hdz : ("+00:00Z".data).reverse =
        'Z' :: '0' :: '0' :: ':' :: '0' :: '0' :: '+' :: [] := rfl
    rw [List.reverse_append, hdz]
    simp only [List.cons_append, List.nil_append, List.getD_cons_zero,
      List.getD_cons_succ]
    have hzero : (('0' : Char) == '.') = false := by decide
    rw [hzero]
    simp

/-! ## C6: degradation on malformed data

The trigger check and the facts builders are meant never to raise on
malformed record data.  The builders mostly degrade (the `float`
conversion is wrapped in `try`/`except`, unknown kinds return empty
results), but two paths do raise: `int()` applied to an infinite float
(the string "inf" parses successfully, skips the `except`, and then
`int(float("inf"))` raises `OverflowError`), and the legacy
`max_of_numeric_fields` builder applies `max` to raw column values, which
raises `TypeError` on mixed string/integer values. -/

/-- C6: concrete evaluations of the embedded `_build_facts`: a reasons
record with the value "inf" under a max-with-evidence field raises
`OverflowError`; the legacy max builder raises `TypeError` on a string
column mixed with a defaulted integer zero; an unknown builder kind and
the trigger check degrade without raising. -/
theorem C6_build_facts_raises_on_malformed_numeric :
    build_facts
        { reason_code := "DPD_ARREARS_EXCLUSION",
          facts_builder :=
            { type := "max_of_numeric_fields_with_evidence",
              fields := ["Arrears_Days"], fact_templates := [] } }
        [("Arrears_Days", .vstr "inf")] = Except.error .overflowError ∧
    build_facts
        { reason_code := "LEGACY_MAX",
          facts_builder :=
            { type := "max_of_numeric_fields",
              fields := ["A", "B"], fact_templates := [] } }
        [("A", .vstr "x")] = Except.error .typeError ∧
    build_facts
        { reason_code := "UNKNOWN_KIND",
          facts_builder := { type := "mystery_kind" } } [] =
      Except.ok (.legacy []) ∧
    check_trigger
        { type := "check_equals", check_column := "C",
          trigger_value := .vstr "Exclude" } [] = false :=
  ⟨rfl, rfl, rfl, rfl⟩

/-! ## C7: validation and explanation gating -/

theorem enrich_step_eq (ev : Record) (acc : Bool × List String) (k : String) :
    enrichStep ev acc k =
      (if missingFactTest ev k then ((false : Bool), acc.2 ++ [k]) else acc) := by
  rw [enrichStep, missingFactTest]
  cases alistGet? ev k with
  | none => simp
  | some v => by_cases hv : (v == PyVal.vnone) = true <;> simp [hv]

theorem enrich_fold (ev : Record) :
    ∀ (rf : List String) (b : Bool) (acc : List String),
      (rf.foldl (enrichStep ev) (b, acc)) =
      (b && rf.all (fun k => !missingFactTest ev k),
        acc ++ rf.filter (missingFactTest ev)) := by
  intro rf
  induction rf with
  | nil => intro b acc; simp
  | cons k t ih =>
    intro b acc
    rw [List.foldl_cons, enrich_step_eq]
    by_cases hk : missingFactTest ev k
    · rw [if_pos hk, ih]
      simp [hk, List.filter_cons]
    · rw [if_neg hk, ih]
      have hk2 : missingFactTest ev k = false := by
        cases hkk : missingFactTest ev k with
        | false => rfl
        | true => exact absurd hkk hk
      simp [hk2, List.filter_cons]

theorem not_missing_iff (ev : Record) (k : String) :
    (!missingFactTest ev k) = true ↔
      ∃ v, alistGet? ev k = some v ∧ v ≠ PyVal.vnone := by
  rw [missingFactTest]
  cases hg : alistGet? ev k with
  | none => simp
  | some v => by_cases hv : v = PyVal.vnone <;> simp [hv]

theorem enrichReason_validation_status (ep : List (String × ExplanationRule))
    (reason : Reason) :
    (enrichReason ep reason).validation_status =
      if (alistGetD ep reason.code {}).required_facts.all
          (fun k => !missingFactTest reason.evidence k) then "passed"
      else "failed" := by
  simp only [enrichReason, enrich_fold, Bool.true_and]

theorem enrichReason_missing_facts (ep : List (String × ExplanationRule))
    (reason : Reason) :
    (enrichReason ep reason).missing_facts =
      (alistGetD ep reason.code {}).required_facts.filter
        (missingFactTest reason.evidence) := by
  simp only [enrichReason, enrich_fold, List.nil_append]

theorem enrichReason_explanation_status (ep : List (String × ExplanationRule))
    (reason : Reason) :
    (enrichReason ep reason).explanation_status =
      if (alistGetD ep reason.code {}).required_facts.all
          (fun k => !missingFactTest reason.evidence k) then "ready"
      else "blocked" := by
  simp only [enrichReason, enrich_fold, Bool.true_and]

theorem enrichReason_explanation_error (ep : List (String × ExplanationRule))
    (reason : Reason) :
    (enrichReason ep reason).explanation_error =
      if (alistGetD ep reason.code {}).required_facts.all
          (fun k => !missingFactTest reason.evidence k) then none
      else
        if strContainsSub "output: "
            (alistGetD ep reason.code {}).evidence_validation then
          some (pyStripWith (fun c => c = Char.ofNat 39 || c = '"')
            (pyStrip
              ((pySplitOn (alistGetD ep reason.code {}).evidence_validation
                  "output: ").getLastD
                (alistGetD ep reason.code {}).evidence_validation)))
        else
          some ("Cannot confirm " ++ pyToLower reason.code ++
            " (missing required evidence).") := by
  simp only [enrichReason, enrich_fold, Bool.true_and,
    get_explanation_validation_error]

/-- C7: for every reason, validation passes iff every required fact of
the reason's explanation rule is present and non-`None` in its evidence;
`missing_facts` lists exactly the absent-or-`None` keys; the explanation
status is `ready` iff validation passed, else `blocked`; and the
explanation error is set iff blocked, in which case it is the text after
the `output: ` marker of the rule's validation text (quote-stripped) or
the generic fallback naming the reason code. -/
theorem C7_validation_and_explanation_gating
    (ep : List (String × ExplanationRule)) (reason : Reason) :
    ((enrichReason ep reason).validation_status = "passed" ↔
      ∀ k ∈ (alistGetD ep reason.code {}).required_facts,
        ∃ v, alistGet? reason.evidence k = some v ∧ v ≠ PyVal.vnone) ∧
    ((enrichReason ep reason).validation_status = "passed" ∨
      (enrichReason ep reason).validation_status = "failed") ∧
    (enrichReason ep reason).missing_facts =
      (alistGetD ep reason.code {}).required_facts.filter
        (missingFactTest reason.evidence) ∧
    ((enrichReason ep reason).explanation_status = "ready" ↔
      (enrichReason ep reason).validation_status = "passed") ∧
    ((enrichReason ep reason).explanation_status = "ready" ∨
      (enrichReason ep reason).explanation_status = "blocked") ∧
    ((enrichReason ep reason).explanation_error.isSome ↔
      (enrichReason ep reason).explanation_status = "blocked") ∧
    ((enrichReason ep reason).explanation_status = "blocked" →
      (enrichReason ep reason).explanation_error = some
        (if strContainsSub "output: "
            (alistGetD ep reason.code {}).evidence_validation then
          pyStripWith (fun c => c = Char.ofNat 39 || c = '"')
            (pyStrip
              ((pySplitOn (alistGetD ep reason.code {}).evidence_validation
                  "output: ").getLastD
                (alistGetD ep reason.code {}).evidence_validation))
        else
          "Cannot confirm " ++ pyToLower reason.code ++
            " (missing required evidence).")) := by
  rcases Bool.eq_false_or_eq_true ((alistGetD ep reason.code {}).required_facts.all
      fun k => !missingFactTest reason.evidence k) with hA | hA
  · refine ⟨?_, ?_, ?_, ?_, ?_, ?_, ?_⟩
    · rw [enrichReason_validation_status, hA]
      constructor
      · intro _ k hk
        exact (not_missing_iff reason.evidence k).mp (List.all_eq_true.mp hA k hk)
      · intro _
        rfl
    · rw [enrichReason_validation_status, hA]
      decide
    · rw [enrichReason_missing_facts]
    · rw [enrichReason_explanation_status, enrichReason_validation_status, hA]
      simp
    · rw [enrichReason_explanation_status, hA]
      decide
    · rw [enrichReason_explanation_error, enrichReason_explanation_status, hA]
      simp
    · intro hcon
      rw [enrichReason_explanation_status, hA] at hcon
      simp at hcon
  · refine ⟨?_, ?_, ?_, ?_, ?_, ?_, ?_⟩
    · rw [enrichReason_validation_status, hA]
      constructor
      · intro hcon
        exact absurd hcon (by decide)
      · intro hall
        exfalso
        have hAll : ((alistGetD ep reason.code {}).required_facts.all
            fun k => !missingFactTest reason.evidence k) = true := by
          rw [List.all_eq_true]
          intro k hk
          exact (not_missing_iff reason.evidence k).mpr (hall k hk)
        rw [hA] at hAll
        exact absurd hAll (by decide)
    · rw [enrichReason_validation_status, hA]
      decide
    · rw [enrichReason_missing_facts]
    · rw [enrichReason_explanation_status, enrichReason_validation_status, hA]
      simp
    · rw [enrichReason_explanation_status, hA]
      decide
    · rw [enrichReason_explanation_error, enrichReason_explanation_status, hA]
      by_cases hc : strContainsSub "output: "
          (alistGetD ep reason.code {}).evidence_validation = true
      · simp [hc]
      · simp [hc]
    · intro _
      rw [enrichReason_explanation_error, hA]
      by_cases hc : strContainsSub "output: "
          (alistGetD ep reason.code {}).evidence_validation = true
      · simp [hc]
      · simp [hc]

theorem C7_validation_and_explanation_gating_witness :
    (enrichReason
        [("R1", { required_facts := ["x"],
                  evidence_validation :=
                    "STRICT check output: \"Missing x.\"" })]
        { code := "R1", evidence := [] }).explanation_error =
      some "Missing x." := by
  have h := (C7_validation_and_explanation_gating
      [("R1", { required_facts := ["x"],
                evidence_validation := "STRICT check output: \"Missing x.\"" })]
      { code := "R1", evidence := [] }).2.2.2.2.2.2 (by decide)
  rw [h]
  decide

/-! ## Extractor lemmas (C3, C9) -/

theorem matchHere_prev_true (cs : List Char) : matchHere true cs = false := by
  simp [matchHere]

theorem digit_word {c : Char} (h : pyIsDigit c = true) :
    pyIsWordChar c = true := by
  simp [pyIsWordChar, h]

theorem allStep_skip :
    ∀ (ds tail : List Char), (∀ d ∈ ds, pyIsWordChar d = true) →
      allStep true (ds ++ tail) = allStep true tail := by
  intro ds
  induction ds with
  | nil => intro tail _; rfl
  | cons d ds ih =>
    intro tail h
    rw [List.cons_append]
    have hd := h d (List.mem_cons_self d ds)
    simp only [allStep, matchHere_prev_true, Bool.false_eq_true, if_false,
      List.nil_append, hd]
    exact ih tail fun x hx => h x (List.mem_cons_of_mem d hx)

theorem scanTenAux_skip :
    ∀ (ds : List Char) (b : Bool) (rest : List Char),
      scanTenAux ds.length b (ds ++ rest) =
        scanTenAux 0 (ds.foldl (fun _ d => pyIsWordChar d) b) rest := by
  intro ds
  induction ds with
  | nil => intro b rest; rfl
  | cons d ds ih =>
    intro b rest
    rw [List.cons_append, List.length_cons, List.foldl_cons]
    show scanTenAux (ds.length + 1) b (d :: (ds ++ rest)) = _
    rw [scanTenAux]
    exact ih (pyIsWordChar d) rest

theorem foldl_word_true :
    ∀ (ds : List Char) (b : Bool), b = true →
      (∀ d ∈ ds, pyIsWordChar d = true) →
      ds.foldl (fun _ d => pyIsWordChar d) b = true := by
  intro ds
  induction ds with
  | nil => intro b hb _; exact hb
  | cons d ds ih =>
    intro b _ h
    rw [List.foldl_cons]
    exact ih _ (h d (List.mem_cons_self d ds))
      fun x hx => h x (List.mem_cons_of_mem d hx)

theorem scanTenAux_eq_allStep :
    ∀ (cs : List Char) (b : Bool), scanTenAux 0 b cs = allStep b cs
  | [], _ => rfl
  | c :: rest, b => by
    by_cases h : matchHere b (c :: rest) = true
    · have h' := h
      simp only [matchHere, Bool.and_eq_true, decide_eq_true_eq] at h'
      have hlen : ((c :: rest).take 10).length = 10 := h'.1.1.1
      have hall : ((c :: rest).take 10).all pyIsDigit = true := h'.1.1.2
      have hsplit10 : (c :: rest).take 10 = c :: rest.take 9 := rfl
      rw [hsplit10] at hlen hall
      simp only [List.all_cons, Bool.and_eq_true] at hall
      have hc : pyIsDigit c = true := hall.1
      have hrest9 : ∀ d ∈ rest.take 9, pyIsDigit d = true :=
        List.all_eq_true.mp hall.2
      have hw : pyIsWordChar c = true := digit_word hc
      have hlen9 : (rest.take 9).length = 9 := by
        simp only [List.length_cons] at hlen
        omega
      have hword9 : ∀ d ∈ rest.take 9, pyIsWordChar d = true :=
        fun d hd => digit_word (hrest9 d hd)
      have hsplit : rest.take 9 ++ rest.drop 9 = rest := List.take_append_drop 9 rest
      have hfold : (rest.take 9).foldl (fun _ d => pyIsWordChar d)
          (pyIsWordChar c) = true :=
        foldl_word_true _ _ hw hword9
      have hrec : scanTenAux 0 true (rest.drop 9) = allStep true (rest.drop 9) :=
        scanTenAux_eq_allStep (rest.drop 9) true
      calc scanTenAux 0 b (c :: rest)
          = String.mk ((c :: rest).take 10) ::
              scanTenAux 9 (pyIsWordChar c) rest := by
            rw [scanTenAux, if_pos h]
        _ = String.mk ((c :: rest).take 10) ::
              scanTenAux (rest.take 9).length (pyIsWordChar c)
                (rest.take 9 ++ rest.drop 9) := by rw [hlen9, hsplit]
        _ = String.mk ((c :: rest).take 10) ::
              scanTenAux 0 ((rest.take 9).foldl (fun _ d => pyIsWordChar d)
                (pyIsWordChar c)) (rest.drop 9) := by rw [scanTenAux_skip]
        _ = String.mk ((c :: rest).take 10) :: allStep true (rest.drop 9) := by
            rw [hfold, hrec]
        _ = String.mk ((c :: rest).take 10) ::
              allStep true (rest.take 9 ++ rest.drop 9) := by
            rw [allStep_skip _ _ hword9]
        _ = String.mk ((c :: rest).take 10) :: allStep (pyIsWordChar c) rest := by
            rw [hsplit, hw]
        _ = allStep b (c :: rest) := by
            rw [allStep, if_pos h]
            rfl
    · have hrec : scanTenAux 0 (pyIsWordChar c) rest =
          allStep (pyIsWordChar c) rest :=
        scanTenAux_eq_allStep rest (pyIsWordChar c)
      rw [scanTenAux, allStep, if_neg h, if_neg h, List.nil_append]
      exact hrec
termination_by cs _ => cs.length
decreasing_by
  · simp only [List.length_drop, List.length_cons]; omega
  · simp only [List.length_cons]; omega

theorem space_not_digit {c : Char} (h : pyIsSpace c = true) :
    pyIsDigit c = false := by
  have h2 : c.toNat = 32 ∨ c.toNat = 9 ∨ c.toNat = 10 ∨ c.toNat = 13 ∨
      c.toNat = 11 ∨ c.toNat = 12 := by
    simp only [pyIsSpace, Bool.or_eq_true, decide_eq_true_eq] at h
    rcases h with ((((h | h) | h) | h) | h) | h
    · subst h; exact Or.inl rfl
    · subst h; exact Or.inr (Or.inl rfl)
    · subst h; exact Or.inr (Or.inr (Or.inl rfl))
    · subst h; exact Or.inr (Or.inr (Or.inr (Or.inl rfl)))
    · exact Or.inr (Or.inr (Or.inr (Or.inr (Or.inl h))))
    · exact Or.inr (Or.inr (Or.inr (Or.inr (Or.inr h))))
  rcases h2 with h2 | h2 | h2 | h2 | h2 | h2 <;>
    · simp only [pyIsDigit, ndRanges, h2]
      decide

set_option maxRecDepth 4000 in
theorem boundedRunAt_zero (p : Bool) (cs : List Char) :
    boundedRunAt p cs 0 = matchHere p cs := by
  rw [boundedRunAt, matchHere]
  have h3 : (if (0 : Nat) = 0 then !p
      else !pyIsWordChar (cs.getD (0 - 1) ' ')) = !p := if_pos rfl
  rw [h3]
  simp only [Nat.zero_add, List.drop_zero]
  have h1 : decide (10 ≤ cs.length) = decide ((cs.take 10).length = 10) := by
    rw [decide_eq_decide, List.length_take]
    omega
  rw [h1]
  congr 1
  cases hd : cs.drop 10 with
  | nil =>
    have hle : cs.length ≤ 10 := List.drop_eq_nil_iff.mp hd
    by_cases he : cs.length = 10
    · simp [he]
    · have hnone : cs[10]? = none := List.getElem?_eq_none (by omega)
      have hne : decide (10 = cs.length) = false := by
        simp only [decide_eq_false_iff_not]
        omega
      simp only [List.getD_eq_getElem?_getD, hnone, Option.getD_none, hne,
        Bool.false_or]
      decide
  | cons x xs =>
    have hlt : 10 < cs.length := by
      have hlen := congrArg List.length hd
      simp only [List.length_drop, List.length_cons] at hlen
      omega
    have hx : cs[10] = x := by
      have hh := List.drop_eq_getElem_cons (l := cs) (n := 10) hlt
      rw [hd] at hh
      exact ((List.cons.injEq x xs _ _).mp hh).1.symm
    have hsome : cs[10]? = some x := by
      rw [List.getElem?_eq_getElem hlt, hx]
    have hne : decide (10 = cs.length) = false := by
      simp only [decide_eq_false_iff_not]
      omega
    simp only [List.getD_eq_getElem?_getD, hsome, Option.getD_some, hne,
      Bool.false_or]

theorem boundedRunAt_succ (p : Bool) (c : Char) (rest : List Char) (i : Nat) :
    boundedRunAt p (c :: rest) (i + 1) = boundedRunAt (pyIsWordChar c) rest i := by
  rw [boundedRunAt, boundedRunAt]
  have h1 : decide (i + 1 + 10 ≤ (c :: rest).length) =
      decide (i + 10 ≤ rest.length) := by
    rw [decide_eq_decide, List.length_cons]
    omega
  have h2 : (c :: rest).drop (i + 1) = rest.drop i := rfl
  have h4 : decide (i + 1 + 10 = (c :: rest).length) =
      decide (i + 10 = rest.length) := by
    rw [decide_eq_decide, List.length_cons]
    omega
  have h5 : (c :: rest).getD (i + 1 + 10) ' ' = rest.getD (i + 10) ' ' := by
    show (c :: rest).getD (i + 10 + 1) ' ' = rest.getD (i + 10) ' '
    simp [List.getD_eq_getElem?_getD]
  have h3 : (if i + 1 = 0 then !p
      else !pyIsWordChar ((c :: rest).getD (i + 1 - 1) ' ')) =
      (if i = 0 then !(pyIsWordChar c)
      else !pyIsWordChar (rest.getD (i - 1) ' ')) := by
    cases i with
    | zero => simp [List.getD_eq_getElem?_getD]
    | succ j => simp [List.getD_eq_getElem?_getD]
  rw [h1, h2, h3, h4, h5]

theorem allStep_eq_runs :
    ∀ (cs : List Char) (p : Bool),
      allStep p cs = (List.range cs.length).filterMap fun i =>
        if boundedRunAt p cs i then some (String.mk ((cs.drop i).take 10))
        else none := by
  intro cs
  induction cs with
  | nil => intro p; rfl
  | cons c rest ih =>
    intro p
    rw [allStep, ih (pyIsWordChar c), List.length_cons, List.range_succ_eq_map,
      List.filterMap_cons]
    have hf0 : boundedRunAt p (c :: rest) 0 = matchHere p (c :: rest) :=
      boundedRunAt_zero p (c :: rest)
    have hmap : (List.filterMap (fun i =>
        if boundedRunAt p (c :: rest) i then
          some (String.mk (((c :: rest).drop i).take 10))
        else none) ((List.range rest.length).map Nat.succ)) =
        (List.range rest.length).filterMap fun i =>
          if boundedRunAt (pyIsWordChar c) rest i then
            some (String.mk ((rest.drop i).take 10))
          else none := by
      rw [List.filterMap_map]
      congr 1
      funext i
      simp only [Function.comp, Nat.succ_eq_add_one, boundedRunAt_succ]
      rfl
    cases hm : matchHere p (c :: rest) with
    | true =>
      have hb : boundedRunAt p (c :: rest) 0 = true := by rw [hf0, hm]
      simp only [hm, if_true, hb, List.drop_zero, hmap]
      rfl
    | false =>
      have hb : boundedRunAt p (c :: rest) 0 = false := by rw [hf0, hm]
      simp only [hm, Bool.false_eq_true, if_false, hb, List.nil_append, hmap]

theorem strip_empty_all_space (message : String)
    (hs : (pyStrip message).isEmpty = true) :
    ∀ c ∈ message.data, pyIsSpace c = true := by
  have h1 : pyStrip message = "" := (String.isEmpty_iff _).mp hs
  have h2 : dropWhileEnd pyIsSpace (message.data.dropWhile pyIsSpace) = [] := by
    have h2a := congrArg String.data h1
    simpa [pyStrip, pyStripWith] using h2a
  have h4 : (message.data.dropWhile pyIsSpace).reverse.dropWhile pyIsSpace
      = [] := by
    rw [dropWhileEnd] at h2
    exact List.reverse_eq_nil_iff.mp h2
  have h3 : ∀ c ∈ message.data.dropWhile pyIsSpace, pyIsSpace c = true := by
    intro c hc
    exact (List.dropWhile_eq_nil_iff).mp h4 c (List.mem_reverse.mpr hc)
  intro c hc
  have hc2 := hc
  rw [← List.takeWhile_append_dropWhile (p := pyIsSpace)
    (l := message.data)] at hc2
  rcases List.mem_append.mp hc2 with h | h
  · exact List.mem_takeWhile_imp h
  · exact h3 c h

theorem runs_nil_of_space (cs : List Char) (h : ∀ c ∈ cs, pyIsSpace c = true) :
    boundedTenDigitRuns cs = [] := by
  rw [boundedTenDigitRuns, List.filterMap_eq_nil_iff]
  intro i hi
  have hi2 : i < cs.length := List.mem_range.mp hi
  have hdig : ((cs.drop i).take 10).all pyIsDigit = false := by
    have hdrop : cs.drop i = cs[i] :: cs.drop (i + 1) :=
      List.drop_eq_getElem_cons hi2
    rw [hdrop]
    have h10 : (cs[i] :: cs.drop (i + 1)).take 10 =
        cs[i] :: (cs.drop (i + 1)).take 9 := rfl
    rw [h10, List.all_cons,
      space_not_digit (h cs[i] (List.getElem_mem hi2))]
    rfl
  have hb : boundedRunAt false cs i = false := by
    rw [boundedRunAt, hdig]
    simp
  rw [hb]
  simp

theorem extract_eq_bounded_runs (message : String) :
    extract message = pyDedup (boundedTenDigitRuns message.data) := by
  rw [extract]
  by_cases hg : (message.isEmpty || (pyStrip message).isEmpty) = true
  · rw [if_pos hg]
    rcases Bool.or_eq_true _ _ |>.mp hg with he | hs
    · have hm : message = "" := (String.isEmpty_iff message).mp he
      subst hm
      rfl
    · rw [runs_nil_of_space message.data (strip_empty_all_space message hs)]
      rfl
  · rw [if_neg hg, scanTen, scanTenAux_eq_allStep, allStep_eq_runs]
    rfl

theorem runs_mem_shape (cs : List Char) (s : String)
    (hs : s ∈ boundedTenDigitRuns cs) :
    s.length = 10 ∧ s.data.all pyIsDigit = true := by
  rw [boundedTenDigitRuns] at hs
  rcases List.mem_filterMap.mp hs with ⟨i, _, hif⟩
  by_cases hb : boundedRunAt false cs i = true
  · rw [if_pos hb] at hif
    injection hif with hif
    subst hif
    rw [boundedRunAt] at hb
    simp only [Bool.and_eq_true, decide_eq_true_eq] at hb
    constructor
    · rw [String.length_mk, List.length_take, List.length_drop]
      have := hb.1.1.1
      omega
    · exact hb.1.1.2
  · rw [if_neg hb] at hif
    exact absurd hif (by simp)

theorem pyDedupAux_subset :
    ∀ (xs seen : List String) (s : String), s ∈ pyDedupAux seen xs → s ∈ xs := by
  intro xs
  induction xs with
  | nil =>
    intro seen s h
    rw [pyDedupAux] at h
    exact absurd h (by simp)
  | cons x rest ih =>
    intro seen s h
    rw [pyDedupAux] at h
    by_cases hx : seen.contains x = true
    · rw [if_pos hx] at h
      exact List.mem_cons_of_mem x (ih seen s h)
    · rw [if_neg hx] at h
      rcases List.mem_cons.mp h with h | h
      · exact h ▸ List.mem_cons_self x rest
      · exact List.mem_cons_of_mem x (ih (x :: seen) s h)

theorem extract_mem_shape (message : String) (s : String)
    (hs : s ∈ extract message) :
    s.length = 10 ∧ s.data.all pyIsDigit = true := by
  rw [extract_eq_bounded_runs] at hs
  exact runs_mem_shape _ _ (pyDedupAux_subset _ _ _ hs)

/-- C3 (amended): `extract` returns exactly the runs of ten decimal
digits that are bounded by non-word characters (not adjacent to a letter,
digit, or underscore — the regex `\b` boundaries, not merely non-digit
boundaries), in first-occurrence order with duplicates removed; every
returned string has exactly ten characters, all digits (so a 9- or
11-digit run is never returned); and whitespace-only input returns the
empty list. -/
theorem C3_extract_bounded_runs (message : String) :
    extract message = pyDedup (boundedTenDigitRuns message.data) ∧
    (∀ s ∈ extract message, s.length = 10 ∧ s.data.all pyIsDigit = true) ∧
    (message.data.all pyIsSpace = true → extract message = []) := by
  refine ⟨extract_eq_bounded_runs message,
    fun s hs => extract_mem_shape message s hs, fun hsp => ?_⟩
  rw [extract_eq_bounded_runs,
    runs_nil_of_space message.data (List.all_eq_true.mp hsp)]
  rfl

set_option maxRecDepth 100000 in
theorem C3_extract_bounded_runs_witness :
    extract "call 1234567890 or 1234567890 now" =
      pyDedup (boundedTenDigitRuns "call 1234567890 or 1234567890 now".data) ∧
    (("1234567890" : String).length = 10 ∧
      "1234567890".data.all pyIsDigit = true) ∧
    extract " \t " = [] :=
  ⟨(C3_extract_bounded_runs "call 1234567890 or 1234567890 now").1,
   (C3_extract_bounded_runs "call 1234567890 or 1234567890 now").2.1
      "1234567890" (by decide),
   (C3_extract_bounded_runs " \t ").2.2 (by decide)⟩

set_option maxRecDepth 100000 in
/-- C3 counterexample: the claim as written promises every maximal run of
exactly ten digits; on `"a1234567890"` the ten digits form a maximal
digit run (preceded by a letter, not a digit), yet the code returns
nothing, because the regex word boundary `\b` also rejects letter and
underscore neighbours. -/
theorem C3_extract_counterexample :
    extract "a1234567890" = [] ∧
    pyDedup (maximalTenDigitRuns "a1234567890".data) = ["1234567890"] := by
  constructor
  · decide
  · decide

theorem digit_imp_strdigit {c : Char} (h : pyIsDigit c = true) :
    pyStrIsDigitChar c = true := by
  simp [pyStrIsDigitChar, h]

theorem extract_all_valid (message : String) :
    ∀ s ∈ extract message, is_valid_account s = true := by
  intro s hs
  obtain ⟨h10, hdig⟩ := extract_mem_shape message s hs
  rw [is_valid_account_iff]
  exact ⟨h10, fun c hc =>
    digit_imp_strdigit (List.all_eq_true.mp hdig c hc)⟩

theorem validate_extract_eq (message : String) :
    validate (some (extract message)) = (extract message, []) := by
  have hv := extract_all_valid message
  cases hx : extract message with
  | nil => rfl
  | cons a t =>
    have hva : ∀ s ∈ a :: t, is_valid_account s = true := by
      rw [← hx]
      exact hv
    rw [validate]
    simp only [List.isEmpty_cons, Bool.false_eq_true, if_false]
    rw [List.filter_eq_self.mpr hva, List.filter_eq_nil_iff.mpr ?_]
    intro b hb
    simp [hva b hb]

/-- C9: every identifier returned by the extractor already satisfies the
validator's format check, so validating the extractor's output returns it
unchanged with an empty invalid list; consequently the orchestrator,
wired with the real extractor and validator, can never produce the
"Invalid account numbers" error. -/
theorem C9_extracted_always_valid (message : String) :
    validate (some (extract message)) = (extract message, []) ∧
    (∀ (det : String → Except PyExn (Bool × String))
       (pr : List String → Except PyExn (List AccountResult))
       (bld : List AccountResult → Except PyExn Payload)
       (rid : String) (e : ErrorResponse),
      process_message
        { detect := det, extract := fun m => Except.ok (extract m),
          validate := fun xs => Except.ok (validate (some xs)),
          process := pr, build := bld } rid message =
        OrchResult.errorPayload e →
      e.error_type ≠ "Invalid account numbers") := by
  refine ⟨validate_extract_eq message, ?_⟩
  intro det pr bld rid e h
  cases hdet : det message with
  | error err =>
    simp [process_message, hdet, Bind.bind, Except.bind] at h
    rw [← h, build_error_response_error_type]
    decide
  | ok p0 =>
    obtain ⟨isE, hsh⟩ := p0
    cases isE with
    | false =>
      simp [process_message, hdet, Bind.bind, Except.bind, pure,
        Except.pure] at h
    | true =>
      cases hx : extract message with
      | nil =>
        simp [process_message, hdet, hx, Bind.bind, Except.bind, pure,
          Except.pure] at h
        rw [← h, build_error_response_error_type]
        decide
      | cons a t =>
        have hval := validate_extract_eq message
        rw [hx] at hval
        cases hpr : pr (a :: t) with
        | error err =>
          simp [process_message, hdet, hx, hval, hpr, Bind.bind, Except.bind,
            pure, Except.pure] at h
          rw [← h, build_error_response_error_type]
          decide
        | ok results =>
          by_cases hre : results.isEmpty = true
          · simp [process_message, hdet, hx, hval, hpr, hre, Bind.bind,
              Except.bind, pure, Except.pure] at h
            rw [← h, build_error_response_error_type]
            decide
          · cases hbld : bld results with
            | error err =>
              simp [process_message, hdet, hx, hval, hpr, hre, hbld,
                Bind.bind, Except.bind, pure, Except.pure] at h
              rw [← h, build_error_response_error_type]
              decide
            | ok p =>
              simp [process_message, hdet, hx, hval, hpr, hre, hbld,
                Bind.bind, Except.bind, pure, Except.pure] at h

set_option maxRecDepth 100000 in
theorem C9_extracted_always_valid_witness :
    validate (some (extract "check 1234567890 and 555")) =
      (extract "check 1234567890 and 555", []) ∧
    (build_error_response "r" "No account numbers found"
        "Please share the 10-digit account number(s) so I can confirm eligibility.").error_type ≠
      "Invalid account numbers" :=
  ⟨(C9_extracted_always_valid "check 1234567890 and 555").1,
   (C9_extracted_always_valid "no digits here").2
      (fun _ => Except.ok (true, "h")) (fun _ => Except.ok [])
      (fun _ => Except.ok {}) "r" _ (by decide)⟩

theorem C5_summary_invariant_witness :
    (build
        [{ account_number := "1", account_number_hash := "h",
           customer_name := .vstr "Unknown", status := "ELIGIBLE",
           reasons := [] },
         { account_number := "2", account_number_hash := "h",
           customer_name := .vstr "Unknown", status := "NOT_ELIGIBLE",
           reasons := [{}, {}] }] "r" {} 0).summary.eligible_count +
        (build
        [{ account_number := "1", account_number_hash := "h",
           customer_name := .vstr "Unknown", status := "ELIGIBLE",
           reasons := [] },
         { account_number := "2", account_number_hash := "h",
           customer_name := .vstr "Unknown", status := "NOT_ELIGIBLE",
           reasons := [{}, {}] }] "r" {} 0).summary.not_eligible_count +
        (build
        [{ account_number := "1", account_number_hash := "h",
           customer_name := .vstr "Unknown", status := "ELIGIBLE",
           reasons := [] },
         { account_number := "2", account_number_hash := "h",
           customer_name := .vstr "Unknown", status := "NOT_ELIGIBLE",
           reasons := [{}, {}] }] "r" {} 0).summary.cannot_confirm_count =
      (build
        [{ account_number := "1", account_number_hash := "h",
           customer_name := .vstr "Unknown", status := "ELIGIBLE",
           reasons := [] },
         { account_number := "2", account_number_hash := "h",
           customer_name := .vstr "Unknown", status := "NOT_ELIGIBLE",
           reasons := [{}, {}] }] "r" {} 0).summary.total_accounts :=
  (C5_summary_invariant
      [{ account_number := "1", account_number_hash := "h",
         customer_name := .vstr "Unknown", status := "ELIGIBLE",
         reasons := [] },
       { account_number := "2", account_number_hash := "h",
         customer_name := .vstr "Unknown", status := "NOT_ELIGIBLE",
         reasons := [{}, {}] }] "r" {} 0 (by decide)).1

end Elig
